import Mathlib

/-!
Verification development for the forest-runner session controller
(`src/components/RunnerScene.jsx`, final revision, plus the jump classifier
hook and `CalibrationPanel.jsx`).

The game loop is shallowly embedded: the body of the `moveInterval`
callback becomes a pure `tick` function on an explicit `GameState`.
Wall-clock inputs read inside the callback (`Date.now()`, the player
position ref, the `Math.random()` draw for the next spawn gap, the paused
flag) are passed in an `Env` record.  The concurrent 50 ms
`checkTumbleDuration` interval is folded into the tick as a phase that
runs before the spawn/move logic; for the resolution-timing claim a
dedicated model of the 50 ms checker is used instead (see
`tumbleResolveOffset` below).  Positions and speeds are rationals;
millisecond timestamps are naturals (JS `Math.max(0, ...)` subtraction
matches truncated `Nat` subtraction).
-/

namespace ForestRunner

/- Batteries marks rational arithmetic `@[irreducible]` for the elaborator;
restore default reducibility inside this development so that concrete
states evaluate with `decide` (the kernel itself always unfolds these). -/
attribute [local semireducible] Rat.add Rat.sub Rat.mul Rat.inv Rat.ofScientific

/-- Player state machine: `'running' | 'tumbling' | 'gameOver'`. -/
inductive PState where
  | running
  | tumbling
  | gameOver
deriving DecidableEq, Repr

/-- An obstacle as created by the spawner in the final revision:
`{ id: Date.now(), z: -25, x: 0, hasHitPlayer: false, hasPassedPlayer: false }`. -/
structure Obstacle where
  id : ℕ
  x : ℚ
  z : ℚ
  hasHitPlayer : Bool
  hasPassedPlayer : Bool
deriving DecidableEq, Repr

/-- Per-tick external inputs of the `moveInterval` callback: `Date.now()`,
the player position ref, the pause flag ref, and the uniform random draw
`MIN_LOG_SPACING + Math.random() * (MAX_LOG_SPACING - MIN_LOG_SPACING)`
used for the next spawn gap (only consumed when the spawn branch runs). -/
structure Env where
  now : ℕ
  playerX : ℚ
  playerY : ℚ
  playerZ : ℚ
  paused : Bool
  spawnGap : ℕ
deriving Repr

/-- The session state mutated by the tick callbacks.  React state and the
manually synchronised refs (`heartsRef`, `playerStateRef`, ...) are merged
into single fields, matching the code's intent that refs mirror state.
`spawnLog` is observation-only instrumentation: the list of timestamps at
which a spawn actually occurred; no tick logic reads it. -/
structure GameState where
  obstacles : List Obstacle
  gameSpeed : ℚ
  gameOver : Bool
  score : ℕ
  hearts : ℕ
  playerState : PState
  scoredSet : Finset ℕ
  hitSet : Finset ℕ
  wasColliding : Bool
  invMs : ℕ
  lastInvUpd : Option ℕ
  tumbleStart : Option ℕ
  pausedAcc : ℕ
  nextSpawnTime : Option ℕ
  lastSpawnTime : ℕ
  spawnLog : List ℕ
deriving DecidableEq

/-- `BASE_LOG_SPEED = 0.12`. -/
def BASE_LOG_SPEED : ℚ := 12 / 100

/-- `MIN_LOG_SPACING = 1800` ms. -/
def MIN_LOG_SPACING : ℕ := 1800

/-- `FIRST_LOG_DELAY = 500` ms. -/
def FIRST_LOG_DELAY : ℕ := 500

/-- `LOG_DESPAWN_DISTANCE = 15`. -/
def LOG_DESPAWN_DISTANCE : ℚ := 15

/-- `MIN_LOG_DISTANCE_Z = 8`. -/
def MIN_LOG_DISTANCE_Z : ℚ := 8

/-- The guarded fallback `playerPositionRef.current[2] || 26`: a JS falsy
(zero) third coordinate is replaced by 26. -/
def playerZOf (env : Env) : ℚ :=
  if env.playerZ = 0 then 26 else env.playerZ

/-- Effective speed: `playerStateRef.current === 'tumbling' ? gameSpeed * 0.4
: gameSpeed`. -/
def effSpeed (s : GameState) : ℚ :=
  if s.playerState = PState.tumbling then s.gameSpeed * (4 / 10) else s.gameSpeed

/-- The three overlap tests computed inside the obstacle map, on the moved
depth `newZ = obs.z + effectiveSpeed`:
`xOverlap = |obs.x - playerX| < 1.8`, `zOverlap = newZ > 24.5 && newZ < 27.0`,
`yCollision = playerY < 1.3`. -/
def collides (px py eff : ℚ) (o : Obstacle) : Bool :=
  let newZ := o.z + eff
  decide (|o.x - px| < 18 / 10) && decide (newZ > 49 / 2) &&
    decide (newZ < 27) && decide (py < 13 / 10)

/-- `updated.findIndex(obs => obs.id === collisionObsId)` followed by
setting `hasHitPlayer: true` on that single element: mark only the first
obstacle with the given id. -/
def markFirstHit : List Obstacle → ℕ → List Obstacle
  | [], _ => []
  | o :: rest, cid =>
      if o.id = cid then { o with hasHitPlayer := true } :: rest
      else o :: markFirstHit rest cid

/-- `awardScoreForObstacle` (the single point of score increase): skip ids
in the hit set, skip already-scored ids, otherwise insert into the scored
set and set the score to the set's size. -/
def awardScoreForObstacle (s : GameState) (id : ℕ) : GameState :=
  if id ∈ s.hitSet then s
  else if id ∈ s.scoredSet then s
  else
    let sc := insert id s.scoredSet
    { s with scoredSet := sc, score := sc.card }

/-- The invincibility-timer bookkeeping at the top of the tick: when the
timer is positive, subtract the wall-clock time since the last update
(clamped at zero by `Nat` subtraction, as `Math.max(0, ...)` does) and
remember `now`; when it is zero, clear the last-update timestamp. -/
def invPhase (now : ℕ) (s : GameState) : GameState :=
  if s.invMs > 0 then
    match s.lastInvUpd with
    | none => { s with lastInvUpd := some now }
    | some lu => { s with invMs := s.invMs - (now - lu), lastInvUpd := some now }
  else { s with lastInvUpd := none }

/-- The concurrent `checkTumbleDuration` callback folded to a tick phase:
if tumbling and `(now - startTime) - pausedAccumulatedTime >= 1500`, return
to running and clear the `wasColliding` edge memory (the `hitObstaclesRef`
set is deliberately NOT cleared); the effect cleanup then resets the
tumble-tracking refs. -/
def tumblePhase (now : ℕ) (s : GameState) : GameState :=
  if s.playerState = PState.tumbling then
    match s.tumbleStart with
    | some ts =>
        if (now - ts) - s.pausedAcc ≥ 1500 then
          { s with playerState := PState.running, wasColliding := false,
                   tumbleStart := none, pausedAcc := 0 }
        else s
    | none => s
  else s

/-- `prev.reduce((last, obs) => obs.z < last.z ? obs : last)`: the
minimum-depth (most recently spawned) obstacle still in the world. -/
def findMinZ : List Obstacle → Option Obstacle
  | [] => none
  | o :: rest => some (rest.foldl (fun last ob => if ob.z < last.z then ob else last) o)

/-- The proximity guard inside the spawn branch: the most recently spawned
obstacle is closer than `MIN_LOG_DISTANCE_Z` to the spawn depth `-25`. -/
def spawnBlocked (obstacles : List Obstacle) : Bool :=
  match findMinZ obstacles with
  | some o => decide (|(-25 : ℚ) - o.z| < MIN_LOG_DISTANCE_Z)
  | none => false

/-- The spawn block of the tick (lines 886-933 of the final revision):
when the scheduled time has arrived and the minimum temporal spacing is
satisfied, append a new obstacle unless the proximity guard blocks it, and
in EITHER case set `lastSpawnTime = now` and draw a fresh
`nextSpawnTime = now + gap` ("Update spawn time after spawn attempt
(whether successful or not)").  When only the temporal spacing fails,
reschedule to `lastSpawnTime + MIN_LOG_SPACING`. -/
def spawnPhase (env : Env) (s : GameState) : GameState :=
  match s.nextSpawnTime with
  | none => s
  | some nst =>
      if env.now ≥ nst then
        if env.now - s.lastSpawnTime ≥ MIN_LOG_SPACING then
          { s with
              obstacles :=
                if spawnBlocked s.obstacles then s.obstacles
                else s.obstacles ++
                  [{ id := env.now, x := 0, z := -25,
                     hasHitPlayer := false, hasPassedPlayer := false }],
              spawnLog :=
                if spawnBlocked s.obstacles then s.spawnLog
                else s.spawnLog ++ [env.now],
              lastSpawnTime := env.now,
              nextSpawnTime := some (env.now + env.spawnGap) }
        else
          { s with nextSpawnTime := some (s.lastSpawnTime + MIN_LOG_SPACING) }
      else s

/-- Apply a qualifying damage event for the first colliding obstacle id:
mark it `hasHitPlayer`, insert it into the hit set, and run the
hearts/state branches (tumble with a 750 ms invincibility window, or
direct game over on the last heart also arming the window, or the
defensive zero-hearts branch). -/
def applyDamage (now : ℕ) (cid : ℕ) (s : GameState) : GameState :=
  let s' := { s with obstacles := markFirstHit s.obstacles cid,
                     hitSet := insert cid s.hitSet }
  if s'.hearts > 1 then
    { s' with hearts := s'.hearts - 1, playerState := PState.tumbling,
              tumbleStart := some now, pausedAcc := 0,
              invMs := 750, lastInvUpd := some now }
  else if s'.hearts = 1 then
    { s' with hearts := 0, gameOver := true, playerState := PState.gameOver,
              invMs := 750, lastInvUpd := some now }
  else if s'.hearts = 0 then
    { s' with gameOver := true, playerState := PState.gameOver }
  else s'

/-- `hitObstaclesRef.current.add(obs.id)` executed for every obstacle that
currently overlaps (line 984): insert all their ids. -/
def hitAdd (colliding : List Obstacle) (h : Finset ℕ) : Finset ℕ :=
  colliding.foldl (fun h o => insert o.id h) h

/-- The obstacle `map` of the movement body: every obstacle advances by
the effective speed, and `hasPassedPlayer` latches once `newZ` exceeds the
player depth; every overlapping obstacle is added to the hit set and
`wasColliding` records whether any obstacle overlaps this tick. -/
def moveBase (env : Env) (s : GameState) : GameState :=
  let eff := effSpeed s
  let pZ := playerZOf env
  let colliding := s.obstacles.filter (collides env.playerX env.playerY eff)
  { s with
      obstacles := s.obstacles.map (fun o =>
        { o with z := o.z + eff,
                 hasPassedPlayer := decide (o.z + eff > pZ) || o.hasPassedPlayer }),
      hitSet := hitAdd colliding s.hitSet,
      wasColliding := !colliding.isEmpty }

/-- The scoring pass over the updated obstacle list: award score (via the
guarded helper) for every obstacle whose depth is past 26.5. -/
def scorePass (l : List Obstacle) (st : GameState) : GameState :=
  l.foldl (fun st o => if o.z > 53 / 2 then awardScoreForObstacle st o.id else st) st

/-- The tail of the movement body: the scoring pass, then removal of
obstacles past the despawn plane `playerZ + LOG_DESPAWN_DISTANCE`. -/
def movePhaseFinish (env : Env) (st : GameState) : GameState :=
  let afterScore := scorePass st.obstacles st
  { afterScore with
      obstacles := afterScore.obstacles.filter (fun o =>
        decide (o.z ≤ playerZOf env + LOG_DESPAWN_DISTANCE)) }

/-- The `setObstacles` movement/collision/scoring/despawn body of the tick:
move every obstacle by the effective speed and refresh `hasPassedPlayer`;
add every currently-overlapping obstacle to the hit set; fire a damage
event (for the first overlapping obstacle id) only on the collision-enter
edge when running, not tumbling, and not invincible; record
`wasColliding`; then score and despawn. -/
def movePhase (env : Env) (s : GameState) : GameState :=
  movePhaseFinish env
    (if (!(s.obstacles.filter (collides env.playerX env.playerY (effSpeed s))).isEmpty
          && !s.wasColliding) = true
        ∧ ¬(s.playerState = PState.tumbling)
        ∧ s.playerState = PState.running ∧ s.invMs = 0 then
      match (s.obstacles.filter (collides env.playerX env.playerY (effSpeed s))).head?.map
          Obstacle.id with
      | some cid => applyDamage env.now cid (moveBase env s)
      | none => moveBase env s
    else moveBase env s)

/-- The state the movement body observes: the invincibility update and the
folded tumble check and the spawn block have already run. -/
def preMoveState (env : Env) (s : GameState) : GameState :=
  spawnPhase env (tumblePhase env.now (invPhase env.now s))

/-- One run of the `moveInterval` callback: return untouched while paused;
update the invincibility timer; bail out once the game is over or the
speed is zero; then tumble check, spawn logic, and the movement body. -/
def tick (env : Env) (s : GameState) : GameState :=
  if env.paused then s
  else if (invPhase env.now s).gameSpeed = 0 ∨ (invPhase env.now s).gameOver then
    invPhase env.now s
  else movePhase env (spawnPhase env (tumblePhase env.now (invPhase env.now s)))

/-- Iterated ticks: `runTicks envs n s` applies the ticks with environments
`envs 0, envs 1, ..., envs (n-1)` in order. -/
def runTicks (envs : ℕ → Env) : ℕ → GameState → GameState
  | 0, s => s
  | n + 1, s => tick (envs n) (runTicks envs n s)

/-- `resetSpawnTracking`: `lastSpawnTime = now - MIN_LOG_SPACING`,
`nextSpawnTime = now + FIRST_LOG_DELAY` (run on game start and on
visibility resume, without touching the obstacle list). -/
def resetSpawnTracking (now : ℕ) (s : GameState) : GameState :=
  { s with lastSpawnTime := now - MIN_LOG_SPACING,
           nextSpawnTime := some (now + FIRST_LOG_DELAY) }

/-- `resetGame`: clear obstacles and both tracking sets, restore score,
hearts, running state, collision edge memory, invincibility, the tumble
refs (via the state-change effect), the spawn tracking, and the base game
speed.  The observation-only `spawnLog` is session history and is kept. -/
def resetGame (now : ℕ) (s : GameState) : GameState :=
  { s with obstacles := [], hitSet := ∅, scoredSet := ∅, score := 0,
           gameOver := false, hearts := 3, playerState := PState.running,
           wasColliding := false, invMs := 0, lastInvUpd := none,
           tumbleStart := none, pausedAcc := 0,
           lastSpawnTime := now - MIN_LOG_SPACING,
           nextSpawnTime := some (now + FIRST_LOG_DELAY),
           gameSpeed := BASE_LOG_SPEED }

/-- The difficulty interval: `setGameSpeed(prev => Math.min(prev + 0.001,
BASE_LOG_SPEED * 1.5))`. -/
def difficultyBump (s : GameState) : GameState :=
  { s with gameSpeed := min (s.gameSpeed + 1 / 1000) (BASE_LOG_SPEED * (15 / 10)) }

/-! ### Run instrumentation used by the temporal claims -/

/-- The `isCurrentlyColliding` value the tick body would compute for this
environment and state (the overlap conditions hold for some obstacle). -/
def tickColliding (env : Env) (s : GameState) : Bool :=
  !((preMoveState env s).obstacles.filter
      (collides env.playerX env.playerY (effSpeed (preMoveState env s)))).isEmpty

/-- Whether this tick fires a damage event: the tick is not short-circuited
by pause / game-over / zero speed, and the collision-enter edge, the
running-state guard, the tumble double-check, and the expired
invincibility timer all pass (the exact guard of the hearts branch). -/
def firesDamage (env : Env) (s : GameState) : Bool :=
  if env.paused then false
  else if (invPhase env.now s).gameSpeed = 0 ∨ (invPhase env.now s).gameOver then false
  else
    tickColliding env s && (!(preMoveState env s).wasColliding) &&
      (decide ¬((preMoveState env s).playerState = PState.tumbling)) &&
      (decide ((preMoveState env s).playerState = PState.running)) &&
      (decide ((preMoveState env s).invMs = 0))

/-- Number of damage events fired over the first `n` ticks of a run. -/
def damageCount (envs : ℕ → Env) (n : ℕ) (s : GameState) : ℕ :=
  (List.range n).countP (fun i => firesDamage (envs i) (runTicks envs i s))

/-- The nominal unpaused tick schedule: tick `i` observes `Date.now() =
t0 + 16 i` (the 16 ms `setInterval` period), a fixed player position, and
some fixed random draw for spawn gaps. -/
def stdEnv (t0 : ℕ) (px py pz : ℚ) (g : ℕ) (i : ℕ) : Env :=
  { now := t0 + 16 * i, playerX := px, playerY := py, playerZ := pz,
    paused := false, spawnGap := g }

/-! ### Spawn-spacing invariants (claim about the spawner) -/

/-- Consecutive recorded spawn timestamps differ by at least
`MIN_LOG_SPACING`. -/
def spacedLog (l : List ℕ) : Prop :=
  List.Chain' (fun a b => a + MIN_LOG_SPACING ≤ b) l

/-- Temporal spawn invariant: the spawn history is spaced, and
`lastSpawnTime` dominates every recorded spawn timestamp. -/
def spawnTimeInv (s : GameState) : Prop :=
  spacedLog s.spawnLog ∧ ∀ t ∈ s.spawnLog, t ≤ s.lastSpawnTime

/-- Spatial spawn invariant: the depths of live obstacles are pairwise at
least `MIN_LOG_DISTANCE_Z` apart, and none is behind the spawn plane. -/
def sepInv (s : GameState) : Prop :=
  (s.obstacles.map Obstacle.z).Pairwise (fun a b => MIN_LOG_DISTANCE_Z ≤ |a - b|) ∧
    ∀ a ∈ s.obstacles.map Obstacle.z, (-25 : ℚ) ≤ a

/-! ### The 50 ms tumble-duration checker (dedicated model)

`checkTumbleDuration` runs on its own `setInterval(..., 50)` started at the
tumble transition, so it observes offsets `50 k` from the tumble start.  A
single pause spanning offsets `[a, b)` makes the checker return early
(frozen) inside the window, and the pause-tracking effect adds `b - a` to
`pausedAccumulatedTimeRef` when the pause ends.  The tumble resolves at
the first check offset with `(now - startTime) - pausedAccumulated >=
1500`, after which the interval is cleared. -/

/-- Whether the check fired at offset `τ` from the tumble start, for a
pause spanning offsets `[a, b)`. -/
def tumbleCheckFires (a b τ : ℕ) : Bool :=
  if a ≤ τ ∧ τ < b then false
  else decide (τ - (if b ≤ τ then b - a else 0) ≥ 1500)

/-- Offset of the first firing check: the checker inspects offsets
`50 * k, 50 * (k+1), ...` until it fires (fuelled search). -/
def tumbleResolveOffset (a b : ℕ) : ℕ → ℕ → Option ℕ
  | 0, _ => none
  | fuel + 1, k =>
      if tumbleCheckFires a b (50 * k) then some (50 * k)
      else tumbleResolveOffset a b fuel (k + 1)

/-! ### Jump classifier (`useJumpDetection`, classification stage)

`jumpThresholdRef` always holds `baseline - 45` while a baseline is
supplied (it is recomputed whenever the baseline changes); with no
baseline it is `null` and the classifier emits `false`. -/

/-- The classification of one smoothed hip height against an optional
baseline: `jumping = smoothed < (baseline - 45) && (baseline - smoothed)
>= 15`, and `false` whenever the baseline is absent. -/
def jumpClassify (baseline : Option ℚ) (smoothed : ℚ) : Bool :=
  match baseline with
  | none => false
  | some b =>
      let threshold := b - 45
      let hipMovement := b - smoothed
      decide (smoothed < threshold) && decide (hipMovement ≥ 15)

/-! ### Calibration standing phase (`CalibrationPanel`, step 1) -/

/-- The rolling buffer after appending one sample: push, then drop the
oldest once the length exceeds 20 (`baselineSamples.current.shift()`). -/
def calibBuffer (buf : List ℚ) (h : ℚ) : List ℚ :=
  let buf1 := buf ++ [h]
  if buf1.length > 20 then buf1.tail else buf1

/-- `samples.reduce((a, b) => a + b, 0) / samples.length`. -/
def sampleMean (l : List ℚ) : ℚ := l.sum / l.length

/-- `samples.reduce((sum, val) => sum + (val - avg)^2, 0) / samples.length`
(the population variance the panel computes). -/
def sampleVariance (l : List ℚ) : ℚ :=
  (l.map (fun v => (v - sampleMean l) ^ 2)).sum / l.length

/-- One run of the step-1 effect body (with a live sample and no baseline
yet): append to the rolling buffer; once it holds at least 15 samples,
compute mean and variance and, if stable, freeze the mean as the baseline,
advance to step 2, and clear the buffer.  The source compares
`Math.sqrt(variance) < 5`, which for the (nonnegative) variance is
equivalent to `variance < 25` used here. -/
def calibStandingStep (buf : List ℚ) (h : ℚ) : List ℚ × Option ℚ :=
  let buf2 := calibBuffer buf h
  if buf2.length ≥ 15 then
    if sampleVariance buf2 < 25 then ([], some (sampleMean buf2))
    else (buf2, none)
  else (buf2, none)

/-! ### Concrete fixtures for witnesses and counterexamples -/

/-- An obstacle with the given id and depth, in the single lane. -/
def mkObstacle (i : ℕ) (z : ℚ) : Obstacle :=
  { id := i, x := 0, z := z, hasHitPlayer := false, hasPassedPlayer := false }

/-- A freshly started session state (3 hearts, running, base speed),
with spawn tracking as of `resetSpawnTracking` at time 1900. -/
def demoBase : GameState :=
  { obstacles := [], gameSpeed := BASE_LOG_SPEED, gameOver := false,
    score := 0, hearts := 3, playerState := PState.running,
    scoredSet := ∅, hitSet := ∅, wasColliding := false,
    invMs := 0, lastInvUpd := none, tumbleStart := none, pausedAcc := 0,
    nextSpawnTime := some 2400, lastSpawnTime := 100, spawnLog := [] }

/-- An unpaused environment with the player grounded at the fixed depth
26, lane centre, and a fixed spawn-gap draw. -/
def demoEnv (t : ℕ) : Env :=
  { now := t, playerX := 0, playerY := 0, playerZ := 26,
    paused := false, spawnGap := 2000 }

/-- A state where the spawn clock is due but the previous obstacle is
still within `MIN_LOG_DISTANCE_Z` of the spawn depth. -/
def blockedSpawnState : GameState :=
  { demoBase with lastSpawnTime := 0, nextSpawnTime := some 2000,
                  obstacles := [mkObstacle 1 (-20)] }

/-- Environment sequence for multi-tick demonstrations (16 ms apart). -/
def demoEnvSeq (i : ℕ) : Env := demoEnv (3000 + 16 * i)

/-- A state in which obstacle 5 has already hit the player. -/
def hitDemoState : GameState :=
  { demoBase with nextSpawnTime := none, obstacles := [mkObstacle 5 10],
                  hitSet := insert 5 ∅ }

/-- A state in which obstacle 9 has already been scored. -/
def scoredDemoState : GameState :=
  { demoBase with nextSpawnTime := none, scoredSet := insert 9 ∅, score := 1 }


/-- A running state with one obstacle inside the collision window. -/
def collideDemoState : GameState :=
  { demoBase with nextSpawnTime := none, obstacles := [mkObstacle 7 25] }

/-- A tumbling, invincible state already in a continuing collision, with
obstacle 11 inside the collision window. -/
def brushDemoState : GameState :=
  { demoBase with nextSpawnTime := none, playerState := PState.tumbling,
                  tumbleStart := some 2900, invMs := 500, lastInvUpd := some 2984,
                  obstacles := [mkObstacle 11 25], wasColliding := true, hearts := 2 }

/-- A tumbling state whose active tumble time has reached 1500 ms, with no
obstacle in the world. -/
def tumbleDemoState : GameState :=
  { demoBase with nextSpawnTime := none, playerState := PState.tumbling,
                  tumbleStart := some 1000, hearts := 2 }


/-- A fresh session about to make its first spawn. -/
def c7Start : GameState :=
  { demoBase with lastSpawnTime := 100, nextSpawnTime := some 2000 }

/-- A running state (3 hearts, no prior collision, expired invincibility)
with a single obstacle just entering the collision window. -/
def c1DemoState : GameState :=
  { demoBase with nextSpawnTime := none, obstacles := [mkObstacle 3 25] }

/-!
## Theorems
-/

/-! ### Frame lemmas: which fields each phase can touch -/

theorem awardScore_eq (s : GameState) (i : ℕ) :
    awardScoreForObstacle s i =
      { s with score := (awardScoreForObstacle s i).score,
               scoredSet := (awardScoreForObstacle s i).scoredSet } := by
  unfold awardScoreForObstacle
  repeat' split <;> simp

theorem invPhase_eq (now : ℕ) (s : GameState) :
    invPhase now s =
      { s with invMs := (invPhase now s).invMs,
               lastInvUpd := (invPhase now s).lastInvUpd } := by
  by_cases h : s.invMs > 0
  · cases hl : s.lastInvUpd with
    | none => simp [invPhase, h, hl]
    | some lu => simp [invPhase, h, hl]
  · simp [invPhase, h]

theorem tumblePhase_eq (now : ℕ) (s : GameState) :
    tumblePhase now s =
      { s with playerState := (tumblePhase now s).playerState,
               wasColliding := (tumblePhase now s).wasColliding,
               tumbleStart := (tumblePhase now s).tumbleStart,
               pausedAcc := (tumblePhase now s).pausedAcc } := by
  by_cases h : s.playerState = PState.tumbling
  · cases ht : s.tumbleStart with
    | none => simp [tumblePhase, h, ht]; rw [← h, ← ht]
    | some ts =>
        by_cases hd : (now - ts) - s.pausedAcc ≥ 1500
        · simp [tumblePhase, h, ht, hd]
        · simp [tumblePhase, h, ht, hd]; rw [← h, ← ht]
  · simp [tumblePhase, h]

theorem spawnPhase_eq (env : Env) (s : GameState) :
    spawnPhase env s =
      { s with obstacles := (spawnPhase env s).obstacles,
               spawnLog := (spawnPhase env s).spawnLog,
               lastSpawnTime := (spawnPhase env s).lastSpawnTime,
               nextSpawnTime := (spawnPhase env s).nextSpawnTime } := by
  cases hn : s.nextSpawnTime with
  | none => simp [spawnPhase, hn]; rw [← hn]
  | some nst =>
      by_cases h1 : env.now ≥ nst
      · by_cases h2 : env.now - s.lastSpawnTime ≥ MIN_LOG_SPACING <;>
          simp [spawnPhase, hn, h1, h2]
      · simp [spawnPhase, hn, h1]; rw [← hn]

theorem applyDamage_eq (now cid : ℕ) (s : GameState) :
    applyDamage now cid s =
      { s with obstacles := (applyDamage now cid s).obstacles,
               hitSet := (applyDamage now cid s).hitSet,
               hearts := (applyDamage now cid s).hearts,
               playerState := (applyDamage now cid s).playerState,
               gameOver := (applyDamage now cid s).gameOver,
               invMs := (applyDamage now cid s).invMs,
               lastInvUpd := (applyDamage now cid s).lastInvUpd,
               tumbleStart := (applyDamage now cid s).tumbleStart,
               pausedAcc := (applyDamage now cid s).pausedAcc } := by
  by_cases h1 : s.hearts > 1
  · simp [applyDamage, h1]
  · by_cases h2 : s.hearts = 1
    · simp [applyDamage, h1, h2]
    · by_cases h3 : s.hearts = 0
      · simp [applyDamage, h1, h2, h3]
      · simp [applyDamage, h1, h2, h3]

theorem invPhase_obstacles (now : ℕ) (s : GameState) :
    (invPhase now s).obstacles = s.obstacles := by rw [invPhase_eq]

theorem invPhase_gameSpeed (now : ℕ) (s : GameState) :
    (invPhase now s).gameSpeed = s.gameSpeed := by rw [invPhase_eq]

theorem invPhase_gameOver (now : ℕ) (s : GameState) :
    (invPhase now s).gameOver = s.gameOver := by rw [invPhase_eq]

theorem invPhase_score (now : ℕ) (s : GameState) :
    (invPhase now s).score = s.score := by rw [invPhase_eq]

theorem invPhase_hearts (now : ℕ) (s : GameState) :
    (invPhase now s).hearts = s.hearts := by rw [invPhase_eq]

theorem invPhase_playerState (now : ℕ) (s : GameState) :
    (invPhase now s).playerState = s.playerState := by rw [invPhase_eq]

theorem invPhase_scoredSet (now : ℕ) (s : GameState) :
    (invPhase now s).scoredSet = s.scoredSet := by rw [invPhase_eq]

theorem invPhase_hitSet (now : ℕ) (s : GameState) :
    (invPhase now s).hitSet = s.hitSet := by rw [invPhase_eq]

theorem invPhase_wasColliding (now : ℕ) (s : GameState) :
    (invPhase now s).wasColliding = s.wasColliding := by rw [invPhase_eq]

theorem invPhase_tumbleStart (now : ℕ) (s : GameState) :
    (invPhase now s).tumbleStart = s.tumbleStart := by rw [invPhase_eq]

theorem invPhase_pausedAcc (now : ℕ) (s : GameState) :
    (invPhase now s).pausedAcc = s.pausedAcc := by rw [invPhase_eq]

theorem invPhase_nextSpawnTime (now : ℕ) (s : GameState) :
    (invPhase now s).nextSpawnTime = s.nextSpawnTime := by rw [invPhase_eq]

theorem invPhase_lastSpawnTime (now : ℕ) (s : GameState) :
    (invPhase now s).lastSpawnTime = s.lastSpawnTime := by rw [invPhase_eq]

theorem invPhase_spawnLog (now : ℕ) (s : GameState) :
    (invPhase now s).spawnLog = s.spawnLog := by rw [invPhase_eq]

theorem tumblePhase_obstacles (now : ℕ) (s : GameState) :
    (tumblePhase now s).obstacles = s.obstacles := by rw [tumblePhase_eq]

theorem tumblePhase_gameSpeed (now : ℕ) (s : GameState) :
    (tumblePhase now s).gameSpeed = s.gameSpeed := by rw [tumblePhase_eq]

theorem tumblePhase_gameOver (now : ℕ) (s : GameState) :
    (tumblePhase now s).gameOver = s.gameOver := by rw [tumblePhase_eq]

theorem tumblePhase_score (now : ℕ) (s : GameState) :
    (tumblePhase now s).score = s.score := by rw [tumblePhase_eq]

theorem tumblePhase_hearts (now : ℕ) (s : GameState) :
    (tumblePhase now s).hearts = s.hearts := by rw [tumblePhase_eq]

theorem tumblePhase_scoredSet (now : ℕ) (s : GameState) :
    (tumblePhase now s).scoredSet = s.scoredSet := by rw [tumblePhase_eq]

theorem tumblePhase_hitSet (now : ℕ) (s : GameState) :
    (tumblePhase now s).hitSet = s.hitSet := by rw [tumblePhase_eq]

theorem tumblePhase_invMs (now : ℕ) (s : GameState) :
    (tumblePhase now s).invMs = s.invMs := by rw [tumblePhase_eq]

theorem tumblePhase_lastInvUpd (now : ℕ) (s : GameState) :
    (tumblePhase now s).lastInvUpd = s.lastInvUpd := by rw [tumblePhase_eq]

theorem tumblePhase_nextSpawnTime (now : ℕ) (s : GameState) :
    (tumblePhase now s).nextSpawnTime = s.nextSpawnTime := by rw [tumblePhase_eq]

theorem tumblePhase_lastSpawnTime (now : ℕ) (s : GameState) :
    (tumblePhase now s).lastSpawnTime = s.lastSpawnTime := by rw [tumblePhase_eq]

theorem tumblePhase_spawnLog (now : ℕ) (s : GameState) :
    (tumblePhase now s).spawnLog = s.spawnLog := by rw [tumblePhase_eq]

theorem spawnPhase_gameSpeed (env : Env) (s : GameState) :
    (spawnPhase env s).gameSpeed = s.gameSpeed := by rw [spawnPhase_eq]

theorem spawnPhase_gameOver (env : Env) (s : GameState) :
    (spawnPhase env s).gameOver = s.gameOver := by rw [spawnPhase_eq]

theorem spawnPhase_score (env : Env) (s : GameState) :
    (spawnPhase env s).score = s.score := by rw [spawnPhase_eq]

theorem spawnPhase_hearts (env : Env) (s : GameState) :
    (spawnPhase env s).hearts = s.hearts := by rw [spawnPhase_eq]

theorem spawnPhase_playerState (env : Env) (s : GameState) :
    (spawnPhase env s).playerState = s.playerState := by rw [spawnPhase_eq]

theorem spawnPhase_scoredSet (env : Env) (s : GameState) :
    (spawnPhase env s).scoredSet = s.scoredSet := by rw [spawnPhase_eq]

theorem spawnPhase_hitSet (env : Env) (s : GameState) :
    (spawnPhase env s).hitSet = s.hitSet := by rw [spawnPhase_eq]

theorem spawnPhase_wasColliding (env : Env) (s : GameState) :
    (spawnPhase env s).wasColliding = s.wasColliding := by rw [spawnPhase_eq]

theorem spawnPhase_invMs (env : Env) (s : GameState) :
    (spawnPhase env s).invMs = s.invMs := by rw [spawnPhase_eq]

theorem spawnPhase_lastInvUpd (env : Env) (s : GameState) :
    (spawnPhase env s).lastInvUpd = s.lastInvUpd := by rw [spawnPhase_eq]

theorem spawnPhase_tumbleStart (env : Env) (s : GameState) :
    (spawnPhase env s).tumbleStart = s.tumbleStart := by rw [spawnPhase_eq]

theorem spawnPhase_pausedAcc (env : Env) (s : GameState) :
    (spawnPhase env s).pausedAcc = s.pausedAcc := by rw [spawnPhase_eq]

theorem awardScore_obstacles (s : GameState) (i : ℕ) :
    (awardScoreForObstacle s i).obstacles = s.obstacles := by rw [awardScore_eq]

theorem awardScore_gameSpeed (s : GameState) (i : ℕ) :
    (awardScoreForObstacle s i).gameSpeed = s.gameSpeed := by rw [awardScore_eq]

theorem awardScore_gameOver (s : GameState) (i : ℕ) :
    (awardScoreForObstacle s i).gameOver = s.gameOver := by rw [awardScore_eq]

theorem awardScore_hearts (s : GameState) (i : ℕ) :
    (awardScoreForObstacle s i).hearts = s.hearts := by rw [awardScore_eq]

theorem awardScore_playerState (s : GameState) (i : ℕ) :
    (awardScoreForObstacle s i).playerState = s.playerState := by rw [awardScore_eq]

theorem awardScore_hitSet (s : GameState) (i : ℕ) :
    (awardScoreForObstacle s i).hitSet = s.hitSet := by rw [awardScore_eq]

theorem awardScore_wasColliding (s : GameState) (i : ℕ) :
    (awardScoreForObstacle s i).wasColliding = s.wasColliding := by rw [awardScore_eq]

theorem awardScore_invMs (s : GameState) (i : ℕ) :
    (awardScoreForObstacle s i).invMs = s.invMs := by rw [awardScore_eq]

theorem awardScore_lastInvUpd (s : GameState) (i : ℕ) :
    (awardScoreForObstacle s i).lastInvUpd = s.lastInvUpd := by rw [awardScore_eq]

theorem awardScore_tumbleStart (s : GameState) (i : ℕ) :
    (awardScoreForObstacle s i).tumbleStart = s.tumbleStart := by rw [awardScore_eq]

theorem awardScore_pausedAcc (s : GameState) (i : ℕ) :
    (awardScoreForObstacle s i).pausedAcc = s.pausedAcc := by rw [awardScore_eq]

theorem awardScore_nextSpawnTime (s : GameState) (i : ℕ) :
    (awardScoreForObstacle s i).nextSpawnTime = s.nextSpawnTime := by rw [awardScore_eq]

theorem awardScore_lastSpawnTime (s : GameState) (i : ℕ) :
    (awardScoreForObstacle s i).lastSpawnTime = s.lastSpawnTime := by rw [awardScore_eq]

theorem awardScore_spawnLog (s : GameState) (i : ℕ) :
    (awardScoreForObstacle s i).spawnLog = s.spawnLog := by rw [awardScore_eq]

theorem applyDamage_gameSpeed (now cid : ℕ) (s : GameState) :
    (applyDamage now cid s).gameSpeed = s.gameSpeed := by rw [applyDamage_eq]

theorem applyDamage_score (now cid : ℕ) (s : GameState) :
    (applyDamage now cid s).score = s.score := by rw [applyDamage_eq]

theorem applyDamage_scoredSet (now cid : ℕ) (s : GameState) :
    (applyDamage now cid s).scoredSet = s.scoredSet := by rw [applyDamage_eq]

theorem applyDamage_wasColliding (now cid : ℕ) (s : GameState) :
    (applyDamage now cid s).wasColliding = s.wasColliding := by rw [applyDamage_eq]

theorem applyDamage_nextSpawnTime (now cid : ℕ) (s : GameState) :
    (applyDamage now cid s).nextSpawnTime = s.nextSpawnTime := by rw [applyDamage_eq]

theorem applyDamage_lastSpawnTime (now cid : ℕ) (s : GameState) :
    (applyDamage now cid s).lastSpawnTime = s.lastSpawnTime := by rw [applyDamage_eq]

theorem applyDamage_spawnLog (now cid : ℕ) (s : GameState) :
    (applyDamage now cid s).spawnLog = s.spawnLog := by rw [applyDamage_eq]

theorem scorePass_eq (l : List Obstacle) (st : GameState) :
    scorePass l st = { st with score := (scorePass l st).score,
                               scoredSet := (scorePass l st).scoredSet } := by
  induction l generalizing st with
  | nil => rfl
  | cons o t ih =>
      have h1 : ∀ s0 : GameState, scorePass (o :: t) s0 =
          scorePass t (if o.z > 53 / 2 then awardScoreForObstacle s0 o.id else s0) :=
        fun _ => rfl
      rw [h1 st]
      by_cases hz : o.z > 53 / 2
      · rw [if_pos hz, ih (awardScoreForObstacle st o.id), awardScore_eq st o.id]
      · rw [if_neg hz, ih st]

theorem scorePass_obstacles (l : List Obstacle) (s : GameState) :
    (scorePass l s).obstacles = s.obstacles := by rw [scorePass_eq]

theorem scorePass_gameSpeed (l : List Obstacle) (s : GameState) :
    (scorePass l s).gameSpeed = s.gameSpeed := by rw [scorePass_eq]

theorem scorePass_gameOver (l : List Obstacle) (s : GameState) :
    (scorePass l s).gameOver = s.gameOver := by rw [scorePass_eq]

theorem scorePass_hearts (l : List Obstacle) (s : GameState) :
    (scorePass l s).hearts = s.hearts := by rw [scorePass_eq]

theorem scorePass_playerState (l : List Obstacle) (s : GameState) :
    (scorePass l s).playerState = s.playerState := by rw [scorePass_eq]

theorem scorePass_hitSet (l : List Obstacle) (s : GameState) :
    (scorePass l s).hitSet = s.hitSet := by rw [scorePass_eq]

theorem scorePass_wasColliding (l : List Obstacle) (s : GameState) :
    (scorePass l s).wasColliding = s.wasColliding := by rw [scorePass_eq]

theorem scorePass_invMs (l : List Obstacle) (s : GameState) :
    (scorePass l s).invMs = s.invMs := by rw [scorePass_eq]

theorem scorePass_lastInvUpd (l : List Obstacle) (s : GameState) :
    (scorePass l s).lastInvUpd = s.lastInvUpd := by rw [scorePass_eq]

theorem scorePass_tumbleStart (l : List Obstacle) (s : GameState) :
    (scorePass l s).tumbleStart = s.tumbleStart := by rw [scorePass_eq]

theorem scorePass_pausedAcc (l : List Obstacle) (s : GameState) :
    (scorePass l s).pausedAcc = s.pausedAcc := by rw [scorePass_eq]

theorem scorePass_nextSpawnTime (l : List Obstacle) (s : GameState) :
    (scorePass l s).nextSpawnTime = s.nextSpawnTime := by rw [scorePass_eq]

theorem scorePass_lastSpawnTime (l : List Obstacle) (s : GameState) :
    (scorePass l s).lastSpawnTime = s.lastSpawnTime := by rw [scorePass_eq]

theorem scorePass_spawnLog (l : List Obstacle) (s : GameState) :
    (scorePass l s).spawnLog = s.spawnLog := by rw [scorePass_eq]

/-! ### Award and scoring-pass lemmas -/

theorem awardScore_hit_skip (s : GameState) (j : ℕ) (h : j ∈ s.hitSet) :
    awardScoreForObstacle s j = s := by
  unfold awardScoreForObstacle; rw [if_pos h]

theorem awardScore_scored_skip (s : GameState) (j : ℕ) (h1 : j ∉ s.hitSet)
    (h2 : j ∈ s.scoredSet) : awardScoreForObstacle s j = s := by
  unfold awardScoreForObstacle; rw [if_neg h1, if_pos h2]

theorem awardScore_mem_self (s : GameState) (j : ℕ) (h1 : j ∉ s.hitSet) :
    j ∈ (awardScoreForObstacle s j).scoredSet := by
  unfold awardScoreForObstacle
  rw [if_neg h1]
  by_cases h2 : j ∈ s.scoredSet
  · rw [if_pos h2]; exact h2
  · rw [if_neg h2]; exact Finset.mem_insert_self j _

theorem awardScore_scored_mono (s : GameState) (j : ℕ) :
    s.scoredSet ⊆ (awardScoreForObstacle s j).scoredSet := by
  unfold awardScoreForObstacle
  by_cases h1 : j ∈ s.hitSet
  · rw [if_pos h1]
  · rw [if_neg h1]
    by_cases h2 : j ∈ s.scoredSet
    · rw [if_pos h2]
    · rw [if_neg h2]; exact Finset.subset_insert j s.scoredSet

theorem awardScore_card (s : GameState) (j : ℕ) (h : s.score = s.scoredSet.card) :
    (awardScoreForObstacle s j).score = (awardScoreForObstacle s j).scoredSet.card := by
  unfold awardScoreForObstacle
  by_cases h1 : j ∈ s.hitSet
  · rw [if_pos h1]; exact h
  · rw [if_neg h1]
    by_cases h2 : j ∈ s.scoredSet
    · rw [if_pos h2]; exact h
    · rw [if_neg h2]

theorem awardScore_notmem (s : GameState) (i j : ℕ) (hs : j ∉ s.scoredSet)
    (hij : j ≠ i) : j ∉ (awardScoreForObstacle s i).scoredSet := by
  unfold awardScoreForObstacle
  by_cases h1 : i ∈ s.hitSet
  · rw [if_pos h1]; exact hs
  · rw [if_neg h1]
    by_cases h2 : i ∈ s.scoredSet
    · rw [if_pos h2]; exact hs
    · rw [if_neg h2]
      rw [Finset.mem_insert]
      push_neg
      exact ⟨hij, hs⟩

theorem scorePass_cons (o : Obstacle) (t : List Obstacle) (st : GameState) :
    scorePass (o :: t) st =
      scorePass t (if o.z > 53 / 2 then awardScoreForObstacle st o.id else st) := rfl

theorem scorePass_scored_mono (l : List Obstacle) (st : GameState) :
    st.scoredSet ⊆ (scorePass l st).scoredSet := by
  induction l generalizing st with
  | nil => exact subset_rfl
  | cons o t ih =>
      rw [scorePass_cons]
      by_cases hz : o.z > 53 / 2
      · rw [if_pos hz]
        exact (awardScore_scored_mono st o.id).trans (ih _)
      · rw [if_neg hz]; exact ih st

theorem scorePass_hit_excl (l : List Obstacle) (st : GameState) (j : ℕ)
    (hh : j ∈ st.hitSet) (hs : j ∉ st.scoredSet) :
    j ∉ (scorePass l st).scoredSet := by
  induction l generalizing st with
  | nil => exact hs
  | cons o t ih =>
      rw [scorePass_cons]
      by_cases hz : o.z > 53 / 2
      · rw [if_pos hz]
        refine ih _ ?_ ?_
        · rw [awardScore_hitSet]; exact hh
        · by_cases hio : o.id ∈ st.hitSet
          · rw [awardScore_hit_skip st o.id hio]; exact hs
          · exact awardScore_notmem st o.id j hs (fun e => hio (e ▸ hh))
      · rw [if_neg hz]; exact ih st hh hs

theorem scorePass_card (l : List Obstacle) (st : GameState)
    (h : st.score = st.scoredSet.card) :
    (scorePass l st).score = (scorePass l st).scoredSet.card := by
  induction l generalizing st with
  | nil => exact h
  | cons o t ih =>
      rw [scorePass_cons]
      by_cases hz : o.z > 53 / 2
      · rw [if_pos hz]; exact ih _ (awardScore_card st o.id h)
      · rw [if_neg hz]; exact ih st h

/-! ### Hit-set accumulation lemmas -/

theorem hitAdd_subset (l : List Obstacle) (h : Finset ℕ) : h ⊆ hitAdd l h := by
  induction l generalizing h with
  | nil => exact subset_rfl
  | cons o t ih =>
      intro x hx
      exact ih (insert o.id h) (Finset.mem_insert_of_mem hx)

theorem hitAdd_mem (l : List Obstacle) (h : Finset ℕ) (o : Obstacle) (ho : o ∈ l) :
    o.id ∈ hitAdd l h := by
  induction l generalizing h with
  | nil => cases ho
  | cons p t ih =>
      rcases List.mem_cons.mp ho with rfl | hmem
      · exact hitAdd_subset t (insert o.id h) (Finset.mem_insert_self o.id h)
      · exact ih (insert p.id h) hmem

/-! ### Decompositions of the movement body and the tick -/

theorem applyDamage_hitSet (now cid : ℕ) (s : GameState) :
    (applyDamage now cid s).hitSet = insert cid s.hitSet := by
  by_cases h1 : s.hearts > 1
  · simp [applyDamage, h1]
  · by_cases h2 : s.hearts = 1
    · simp [applyDamage, h1, h2]
    · by_cases h3 : s.hearts = 0
      · simp [applyDamage, h1, h2, h3]
      · simp [applyDamage, h1, h2, h3]

theorem applyDamage_obstacles (now cid : ℕ) (s : GameState) :
    (applyDamage now cid s).obstacles = markFirstHit s.obstacles cid := by
  by_cases h1 : s.hearts > 1
  · simp [applyDamage, h1]
  · by_cases h2 : s.hearts = 1
    · simp [applyDamage, h1, h2]
    · by_cases h3 : s.hearts = 0
      · simp [applyDamage, h1, h2, h3]
      · simp [applyDamage, h1, h2, h3]

theorem moveBase_scoredSet (env : Env) (s : GameState) :
    (moveBase env s).scoredSet = s.scoredSet := rfl

theorem moveBase_score (env : Env) (s : GameState) :
    (moveBase env s).score = s.score := rfl

theorem moveBase_hearts (env : Env) (s : GameState) :
    (moveBase env s).hearts = s.hearts := rfl

theorem moveBase_playerState (env : Env) (s : GameState) :
    (moveBase env s).playerState = s.playerState := rfl

theorem moveBase_gameOver (env : Env) (s : GameState) :
    (moveBase env s).gameOver = s.gameOver := rfl

theorem moveBase_gameSpeed (env : Env) (s : GameState) :
    (moveBase env s).gameSpeed = s.gameSpeed := rfl

theorem moveBase_hitSet (env : Env) (s : GameState) :
    (moveBase env s).hitSet =
      hitAdd (s.obstacles.filter (collides env.playerX env.playerY (effSpeed s)))
        s.hitSet := rfl

theorem movePhaseFinish_scoredSet (env : Env) (st : GameState) :
    (movePhaseFinish env st).scoredSet = (scorePass st.obstacles st).scoredSet := rfl

theorem movePhaseFinish_score (env : Env) (st : GameState) :
    (movePhaseFinish env st).score = (scorePass st.obstacles st).score := rfl

theorem movePhaseFinish_hitSet (env : Env) (st : GameState) :
    (movePhaseFinish env st).hitSet = st.hitSet := scorePass_hitSet st.obstacles st

theorem movePhaseFinish_hearts (env : Env) (st : GameState) :
    (movePhaseFinish env st).hearts = st.hearts := scorePass_hearts st.obstacles st

theorem movePhaseFinish_playerState (env : Env) (st : GameState) :
    (movePhaseFinish env st).playerState = st.playerState :=
  scorePass_playerState st.obstacles st

theorem movePhaseFinish_gameOver (env : Env) (st : GameState) :
    (movePhaseFinish env st).gameOver = st.gameOver := scorePass_gameOver st.obstacles st

theorem movePhaseFinish_gameSpeed (env : Env) (st : GameState) :
    (movePhaseFinish env st).gameSpeed = st.gameSpeed :=
  scorePass_gameSpeed st.obstacles st

theorem movePhaseFinish_invMs (env : Env) (st : GameState) :
    (movePhaseFinish env st).invMs = st.invMs := scorePass_invMs st.obstacles st

theorem movePhaseFinish_wasColliding (env : Env) (st : GameState) :
    (movePhaseFinish env st).wasColliding = st.wasColliding :=
  scorePass_wasColliding st.obstacles st

theorem movePhaseFinish_tumbleStart (env : Env) (st : GameState) :
    (movePhaseFinish env st).tumbleStart = st.tumbleStart :=
  scorePass_tumbleStart st.obstacles st

theorem movePhaseFinish_pausedAcc (env : Env) (st : GameState) :
    (movePhaseFinish env st).pausedAcc = st.pausedAcc :=
  scorePass_pausedAcc st.obstacles st

theorem movePhaseFinish_nextSpawnTime (env : Env) (st : GameState) :
    (movePhaseFinish env st).nextSpawnTime = st.nextSpawnTime :=
  scorePass_nextSpawnTime st.obstacles st

theorem movePhaseFinish_lastSpawnTime (env : Env) (st : GameState) :
    (movePhaseFinish env st).lastSpawnTime = st.lastSpawnTime :=
  scorePass_lastSpawnTime st.obstacles st

theorem movePhaseFinish_spawnLog (env : Env) (st : GameState) :
    (movePhaseFinish env st).spawnLog = st.spawnLog :=
  scorePass_spawnLog st.obstacles st

theorem movePhase_cases (env : Env) (s : GameState) :
    movePhase env s = movePhaseFinish env (moveBase env s) ∨
      ∃ cid, movePhase env s = movePhaseFinish env (applyDamage env.now cid (moveBase env s)) := by
  unfold movePhase
  split
  · split
    · exact Or.inr ⟨_, rfl⟩
    · exact Or.inl rfl
  · exact Or.inl rfl

theorem tick_cases (env : Env) (s : GameState) :
    tick env s = s ∨ tick env s = invPhase env.now s ∨
      tick env s = movePhase env (preMoveState env s) := by
  unfold tick preMoveState
  split
  · exact Or.inl rfl
  · split
    · exact Or.inr (Or.inl rfl)
    · exact Or.inr (Or.inr rfl)

theorem preMoveState_hitSet (env : Env) (s : GameState) :
    (preMoveState env s).hitSet = s.hitSet := by
  unfold preMoveState
  rw [spawnPhase_hitSet, tumblePhase_hitSet, invPhase_hitSet]

theorem preMoveState_scoredSet (env : Env) (s : GameState) :
    (preMoveState env s).scoredSet = s.scoredSet := by
  unfold preMoveState
  rw [spawnPhase_scoredSet, tumblePhase_scoredSet, invPhase_scoredSet]

theorem preMoveState_score (env : Env) (s : GameState) :
    (preMoveState env s).score = s.score := by
  unfold preMoveState
  rw [spawnPhase_score, tumblePhase_score, invPhase_score]

theorem preMoveState_hearts (env : Env) (s : GameState) :
    (preMoveState env s).hearts = s.hearts := by
  unfold preMoveState
  rw [spawnPhase_hearts, tumblePhase_hearts, invPhase_hearts]

theorem preMoveState_gameSpeed (env : Env) (s : GameState) :
    (preMoveState env s).gameSpeed = s.gameSpeed := by
  unfold preMoveState
  rw [spawnPhase_gameSpeed, tumblePhase_gameSpeed, invPhase_gameSpeed]

theorem preMoveState_gameOver (env : Env) (s : GameState) :
    (preMoveState env s).gameOver = s.gameOver := by
  unfold preMoveState
  rw [spawnPhase_gameOver, tumblePhase_gameOver, invPhase_gameOver]

/-! ### Hit persistence and scoring exclusion through a tick -/

theorem movePhase_hitSet_mono (env : Env) (s : GameState) :
    s.hitSet ⊆ (movePhase env s).hitSet := by
  rcases movePhase_cases env s with h | ⟨cid, h⟩ <;> rw [h, movePhaseFinish_hitSet]
  · exact hitAdd_subset _ _
  · intro x hx
    rw [applyDamage_hitSet]
    exact Finset.mem_insert_of_mem (hitAdd_subset _ _ hx)

theorem movePhase_scored_mono (env : Env) (s : GameState) :
    s.scoredSet ⊆ (movePhase env s).scoredSet := by
  rcases movePhase_cases env s with h | ⟨cid, h⟩ <;> rw [h, movePhaseFinish_scoredSet]
  · intro x hx
    exact scorePass_scored_mono _ _ hx
  · intro x hx
    apply scorePass_scored_mono
    rw [applyDamage_scoredSet]
    exact hx

theorem movePhase_hit_excl (env : Env) (s : GameState) (j : ℕ)
    (hh : j ∈ s.hitSet) (hs : j ∉ s.scoredSet) :
    j ∉ (movePhase env s).scoredSet := by
  rcases movePhase_cases env s with h | ⟨cid, h⟩ <;> rw [h, movePhaseFinish_scoredSet]
  · exact scorePass_hit_excl _ _ j (hitAdd_subset _ _ hh) hs
  · refine scorePass_hit_excl _ _ j ?_ ?_
    · rw [applyDamage_hitSet]
      exact Finset.mem_insert_of_mem (hitAdd_subset _ _ hh)
    · rw [applyDamage_scoredSet]
      exact hs

theorem movePhase_card (env : Env) (s : GameState) (h : s.score = s.scoredSet.card) :
    (movePhase env s).score = (movePhase env s).scoredSet.card := by
  rcases movePhase_cases env s with heq | ⟨cid, heq⟩ <;>
    rw [heq, movePhaseFinish_score, movePhaseFinish_scoredSet]
  · exact scorePass_card _ _ h
  · apply scorePass_card
    rw [applyDamage_score, applyDamage_scoredSet]
    exact h

theorem tick_hitSet_mono (env : Env) (s : GameState) :
    s.hitSet ⊆ (tick env s).hitSet := by
  rcases tick_cases env s with h | h | h
  · rw [h]
  · rw [h, invPhase_hitSet]
  · rw [h]
    intro x hx
    apply movePhase_hitSet_mono
    rw [preMoveState_hitSet]
    exact hx

theorem tick_scored_mono (env : Env) (s : GameState) :
    s.scoredSet ⊆ (tick env s).scoredSet := by
  rcases tick_cases env s with h | h | h
  · rw [h]
  · rw [h, invPhase_scoredSet]
  · rw [h]
    intro x hx
    apply movePhase_scored_mono
    rw [preMoveState_scoredSet]
    exact hx

theorem tick_hit_persist (env : Env) (s : GameState) (j : ℕ) (hh : j ∈ s.hitSet) :
    j ∈ (tick env s).hitSet ∧ (j ∉ s.scoredSet → j ∉ (tick env s).scoredSet) := by
  refine ⟨tick_hitSet_mono env s hh, fun hs => ?_⟩
  rcases tick_cases env s with h | h | h <;> rw [h]
  · exact hs
  · rw [invPhase_scoredSet]; exact hs
  · refine movePhase_hit_excl env _ j ?_ ?_
    · rw [preMoveState_hitSet]; exact hh
    · rw [preMoveState_scoredSet]; exact hs

theorem tick_score_card (env : Env) (s : GameState) (h : s.score = s.scoredSet.card) :
    (tick env s).score = (tick env s).scoredSet.card := by
  rcases tick_cases env s with heq | heq | heq <;> rw [heq]
  · exact h
  · rw [invPhase_score, invPhase_scoredSet]; exact h
  · apply movePhase_card
    rw [preMoveState_score, preMoveState_scoredSet]
    exact h

theorem runTicks_hit_persist (envs : ℕ → Env) (n : ℕ) (s : GameState) (j : ℕ)
    (hh : j ∈ s.hitSet) :
    j ∈ (runTicks envs n s).hitSet ∧
      (j ∉ s.scoredSet → j ∉ (runTicks envs n s).scoredSet) := by
  induction n with
  | zero => exact ⟨hh, fun hs => hs⟩
  | succ m ih =>
      obtain ⟨ih1, ih2⟩ := ih
      obtain ⟨t1, t2⟩ := tick_hit_persist (envs m) (runTicks envs m s) j ih1
      exact ⟨t1, fun hs => t2 (ih2 hs)⟩

/-! ### Claims C2 and C3: hit persistence and exactly-once scoring -/

/-- Claim C2: once an obstacle id enters the hit set it stays there for
every later tick of the session, and (score/hit mutual exclusion) the id
never enters the scored set at that or any later tick, even if the
obstacle later passes the player. -/
theorem C2_hit_set_persistence (envs : ℕ → Env) (n : ℕ) (s : GameState) (j : ℕ)
    (hh : j ∈ s.hitSet) :
    j ∈ (runTicks envs n s).hitSet ∧
      (j ∉ s.scoredSet → j ∉ (runTicks envs n s).scoredSet) :=
  runTicks_hit_persist envs n s j hh

/-- Witness for C2 at a concrete state (obstacle 5 hit, 3 ticks). -/
theorem C2_hit_set_persistence_witness :
    5 ∈ (runTicks demoEnvSeq 3 hitDemoState).hitSet ∧
      5 ∉ (runTicks demoEnvSeq 3 hitDemoState).scoredSet :=
  ⟨(C2_hit_set_persistence demoEnvSeq 3 hitDemoState 5 (by decide)).1,
   (C2_hit_set_persistence demoEnvSeq 3 hitDemoState 5 (by decide)).2 (by decide)⟩

/-- Claim C3: `awardScoreForObstacle` is idempotent (re-running the award
check for an already-scored obstacle changes nothing, in the same tick or
any later one), and the score always equals the number of distinct scored
obstacle identities (`scoredObstaclesRef.current.size`), an invariant
preserved by every award call and every tick. -/
theorem C3_score_idempotence (s : GameState) (j : ℕ) (env : Env) :
    awardScoreForObstacle (awardScoreForObstacle s j) j = awardScoreForObstacle s j ∧
    (j ∈ s.scoredSet → awardScoreForObstacle s j = s ∧ j ∈ (tick env s).scoredSet) ∧
    (s.score = s.scoredSet.card →
      (awardScoreForObstacle s j).score = (awardScoreForObstacle s j).scoredSet.card ∧
      (tick env s).score = (tick env s).scoredSet.card) := by
  refine ⟨?_, fun hj => ⟨?_, tick_scored_mono env s hj⟩,
    fun hc => ⟨awardScore_card s j hc, tick_score_card env s hc⟩⟩
  · by_cases h1 : j ∈ s.hitSet
    · rw [awardScore_hit_skip s j h1, awardScore_hit_skip s j h1]
    · have hmem : j ∈ (awardScoreForObstacle s j).scoredSet := awardScore_mem_self s j h1
      have hh1 : j ∉ (awardScoreForObstacle s j).hitSet := by
        rw [awardScore_hitSet]; exact h1
      exact awardScore_scored_skip _ j hh1 hmem
  · by_cases h1 : j ∈ s.hitSet
    · exact awardScore_hit_skip s j h1
    · exact awardScore_scored_skip s j h1 ‹j ∈ s.scoredSet›

/-- Witness for C3 at a concrete state (obstacle 9 scored, score 1). -/
theorem C3_score_idempotence_witness :
    awardScoreForObstacle scoredDemoState 9 = scoredDemoState ∧
    9 ∈ (tick (demoEnv 3000) scoredDemoState).scoredSet ∧
    (tick (demoEnv 3000) scoredDemoState).score =
      (tick (demoEnv 3000) scoredDemoState).scoredSet.card :=
  ⟨((C3_score_idempotence scoredDemoState 9 (demoEnv 3000)).2.1 (by decide)).1,
   ((C3_score_idempotence scoredDemoState 9 (demoEnv 3000)).2.1 (by decide)).2,
   ((C3_score_idempotence scoredDemoState 9 (demoEnv 3000)).2.2 (by decide)).2⟩

/-! ### Claim C4: tumble resolution and pause -/

/-- Claim C4 counterexample: the 50 ms checker quantizes resolution.  With
no pause the tumble resolves at offset 1500; with a 30 ms pause spanning
offsets [100, 130) it resolves at offset 1550, and 1550 - 30 is not 1500,
refuting `resolved_time_unpaused = resolved_time_paused - P` for P = 30. -/
theorem C4_tumble_pause_counterexample :
    tumbleResolveOffset 0 0 100 0 = some 1500 ∧
    tumbleResolveOffset 100 130 100 0 = some 1550 ∧
    (1550 : ℕ) - 30 ≠ 1500 := by decide

theorem tumbleResolve_search (a b m : ℕ)
    (hfire : tumbleCheckFires a b (50 * m) = true)
    (hnot : ∀ k, k < m → tumbleCheckFires a b (50 * k) = false) :
    ∀ fuel k, k ≤ m → m < k + fuel → tumbleResolveOffset a b fuel k = some (50 * m) := by
  intro fuel
  induction fuel with
  | zero => intro k hk hm; omega
  | succ n ih =>
      intro k hk hm
      rcases Nat.eq_or_lt_of_le hk with heq | hlt
      · subst heq
        rw [tumbleResolveOffset, hfire]
        simp
      · rw [tumbleResolveOffset, hnot k hlt]
        simp only [Bool.false_eq_true, if_false]
        exact ih (k + 1) hlt (by omega)

/-- Claim C4 (amended): the tumble ends at the first 50 ms check at which
`(now - tumbleStart) - accumulatedPausedTime` has reached 1500 ms; for a
pause aligned to the check grid (both endpoints multiples of 50 ms,
starting before unpaused resolution), the paused resolution offset is
exactly the unpaused one (1500) plus the pause duration. -/
theorem C4_tumble_pause_amended (i j : ℕ) (hij : i ≤ j) (hmid : 50 * i ≤ 1500) :
    tumbleResolveOffset (50 * i) (50 * j) (31 + (j - i)) 0 =
      some (1500 + 50 * (j - i)) := by
  have hm50 : 1500 + 50 * (j - i) = 50 * (30 + (j - i)) := by omega
  rw [hm50]
  apply tumbleResolve_search
  · have hτb : 50 * j ≤ 50 * (30 + (j - i)) := by omega
    have hnp : ¬(50 * i ≤ 50 * (30 + (j - i)) ∧ 50 * (30 + (j - i)) < 50 * j) := by omega
    unfold tumbleCheckFires
    rw [if_neg hnp, if_pos hτb]
    simp only [decide_eq_true_eq, ge_iff_le]
    omega
  · intro k hk
    unfold tumbleCheckFires
    by_cases hp : 50 * i ≤ 50 * k ∧ 50 * k < 50 * j
    · rw [if_pos hp]
    · rw [if_neg hp]
      simp only [decide_eq_false_iff_not, ge_iff_le]
      by_cases hb : 50 * j ≤ 50 * k
      · rw [if_pos hb]; omega
      · rw [if_neg hb]; omega
  · omega
  · omega

/-- Witness for the amended C4: a 100 ms grid-aligned pause at offsets
[100, 200) delays resolution from 1500 to 1600. -/
theorem C4_tumble_pause_amended_witness :
    tumbleResolveOffset 100 200 33 0 = some 1600 := by
  exact C4_tumble_pause_amended 2 4 (by omega) (by omega)

/-! ### Claim C6: proximity-blocked spawn still reschedules -/

/-- Claim C6 counterexample: with the spawn due (now = 2000 ≥
nextSpawnTime = 2000, 2000 - 0 ≥ 1800) and the last obstacle at depth -20
(5 < 8 from the spawn plane), the tick skips spawning — but the spawn
schedule is NOT left unchanged: lastSpawnTime advances to now and
nextSpawnTime is redrawn. -/
theorem C6_spawn_reschedule_counterexample :
    blockedSpawnState.nextSpawnTime = some 2000 ∧
    (demoEnv 2000).now ≥ 2000 ∧
    (demoEnv 2000).now - blockedSpawnState.lastSpawnTime ≥ MIN_LOG_SPACING ∧
    spawnBlocked blockedSpawnState.obstacles = true ∧
    (tick (demoEnv 2000) blockedSpawnState).obstacles.length =
      blockedSpawnState.obstacles.length ∧
    (tick (demoEnv 2000) blockedSpawnState).spawnLog = blockedSpawnState.spawnLog ∧
    (tick (demoEnv 2000) blockedSpawnState).lastSpawnTime ≠
      blockedSpawnState.lastSpawnTime ∧
    (tick (demoEnv 2000) blockedSpawnState).nextSpawnTime ≠
      blockedSpawnState.nextSpawnTime := by decide

/-- Claim C6 (amended): when the spawner's time checks pass but the most
recent obstacle is within the minimum separation of the spawn depth, the
spawn block adds no obstacle, yet updates the schedule exactly as after a
successful spawn: `lastSpawnTime := now` and `nextSpawnTime := now + gap`
("Update spawn time after spawn attempt (whether successful or not)"). -/
theorem C6_spawn_skip_amended (env : Env) (s : GameState) (nst : ℕ)
    (h1 : s.nextSpawnTime = some nst) (h2 : env.now ≥ nst)
    (h3 : env.now - s.lastSpawnTime ≥ MIN_LOG_SPACING)
    (h4 : spawnBlocked s.obstacles = true) :
    spawnPhase env s =
      { s with lastSpawnTime := env.now,
               nextSpawnTime := some (env.now + env.spawnGap) } := by
  simp [spawnPhase, h1, h2, h3, h4]

/-- Witness for the amended C6 at the concrete blocked state. -/
theorem C6_spawn_skip_amended_witness :
    spawnPhase (demoEnv 2000) blockedSpawnState =
      { blockedSpawnState with lastSpawnTime := 2000, nextSpawnTime := some 4000 } := by
  exact C6_spawn_skip_amended (demoEnv 2000) blockedSpawnState 2000 rfl
    (by decide) (by decide) (by decide)

/-! ### Claim C8: the jump classifier -/

/-- Claim C8: with a baseline, the classifier reports jumping exactly when
`smoothed < baseline - 45` and `baseline - smoothed >= 15`; with no
baseline it never reports jumping; concretely, with baseline 300 a
smoothed height of 250 is jumping and 290 is not. -/
theorem C8_jump_classifier :
    (∀ b h : ℚ, jumpClassify (some b) h = true ↔ (h < b - 45 ∧ b - h ≥ 15)) ∧
    (∀ h : ℚ, jumpClassify none h = false) ∧
    jumpClassify (some 300) 250 = true ∧ jumpClassify (some 300) 290 = false := by
  refine ⟨fun b h => ?_, fun h => rfl, by decide, by decide⟩
  simp [jumpClassify]

/-! ### Claim C9: the calibration standing phase -/

/-- Claim C9: the standing phase freezes the baseline as the mean of the
rolling buffer exactly when the buffer holds at least 15 samples whose
variance is below the stability bound (`sqrt variance < 5`, i.e.
`variance < 25`), clearing the buffer; the buffer is bounded at 20
samples, with the oldest dropped past 20. -/
theorem C9_calibration_standing (buf : List ℚ) (h : ℚ) :
    (∀ b, (calibStandingStep buf h).2 = some b →
      15 ≤ (calibBuffer buf h).length ∧ sampleVariance (calibBuffer buf h) < 25 ∧
        b = sampleMean (calibBuffer buf h) ∧ (calibStandingStep buf h).1 = []) ∧
    (buf.length ≤ 20 → (calibStandingStep buf h).1.length ≤ 20) ∧
    (buf.length = 20 → calibBuffer buf h = buf.tail ++ [h]) ∧
    (buf.length < 20 → calibBuffer buf h = buf ++ [h]) := by
  refine ⟨?_, ?_, ?_, ?_⟩
  · intro b hb
    unfold calibStandingStep at hb
    by_cases h15 : (calibBuffer buf h).length ≥ 15
    · rw [if_pos h15] at hb
      by_cases hv : sampleVariance (calibBuffer buf h) < 25
      · rw [if_pos hv] at hb
        simp only [Option.some.injEq] at hb
        refine ⟨h15, hv, hb.symm, ?_⟩
        unfold calibStandingStep
        rw [if_pos h15, if_pos hv]
      · rw [if_neg hv] at hb
        simp at hb
    · rw [if_neg h15] at hb
      simp at hb
  · intro hlen
    have hb : (calibBuffer buf h).length ≤ 20 := by
      unfold calibBuffer
      by_cases hl : (buf ++ [h]).length > 20
      · rw [if_pos hl]
        simp [List.length_tail]
        exact hlen
      · rw [if_neg hl]
        simp only [List.length_append, List.length_singleton] at hl ⊢
        omega
    unfold calibStandingStep
    by_cases h15 : (calibBuffer buf h).length ≥ 15
    · rw [if_pos h15]
      by_cases hv : sampleVariance (calibBuffer buf h) < 25
      · rw [if_pos hv]
        simp
      · rw [if_neg hv]
        exact hb
    · rw [if_neg h15]
      exact hb
  · intro h20
    unfold calibBuffer
    have hl : (buf ++ [h]).length > 20 := by simp [h20]
    rw [if_pos hl]
    cases buf with
    | nil => simp at h20
    | cons a t => simp
  · intro hlt
    unfold calibBuffer
    have hl : ¬((buf ++ [h]).length > 20) := by
      simp only [List.length_append, List.length_singleton]
      omega
    rw [if_neg hl]

/-- Witness for C9: sixteen identical samples are stable, so the baseline
freezes at their mean and the buffer clears. -/
theorem C9_calibration_standing_witness :
    15 ≤ (calibBuffer (List.replicate 15 (100 : ℚ)) 100).length ∧
    sampleVariance (calibBuffer (List.replicate 15 (100 : ℚ)) 100) < 25 ∧
    (100 : ℚ) = sampleMean (calibBuffer (List.replicate 15 (100 : ℚ)) 100) ∧
    (calibStandingStep (List.replicate 15 (100 : ℚ)) 100).1 = [] :=
  (C9_calibration_standing (List.replicate 15 (100 : ℚ)) 100).1 100 (by decide)

/-! ### Entering the movement body, and the damage branch -/

theorem tick_run_eq (env : Env) (s : GameState) (hp : env.paused = false)
    (hgs : s.gameSpeed ≠ 0) (hgo : s.gameOver = false) :
    tick env s = movePhase env (preMoveState env s) := by
  have hng : ¬((invPhase env.now s).gameSpeed = 0 ∨ (invPhase env.now s).gameOver = true) := by
    rw [invPhase_gameSpeed, invPhase_gameOver, hgo]
    simp [hgs]
  unfold tick
  rw [hp]
  simp only [Bool.false_eq_true, if_false]
  rw [if_neg hng]
  rfl

theorem spawnPhase_obstacles_append (env : Env) (s : GameState) :
    ∃ t, (spawnPhase env s).obstacles = s.obstacles ++ t := by
  unfold spawnPhase
  split
  · exact ⟨[], (List.append_nil _).symm⟩
  · split
    · split
      · by_cases hb : spawnBlocked s.obstacles
        · refine ⟨[], ?_⟩
          simp [hb]
        · refine ⟨[{ id := env.now, x := 0, z := -25,
                     hasHitPlayer := false, hasPassedPlayer := false }], ?_⟩
          simp [hb]
      · exact ⟨[], (List.append_nil _).symm⟩
    · exact ⟨[], (List.append_nil _).symm⟩

theorem effSpeed_congr (s1 s2 : GameState) (h1 : s1.playerState = s2.playerState)
    (h2 : s1.gameSpeed = s2.gameSpeed) : effSpeed s1 = effSpeed s2 := by
  unfold effSpeed
  rw [h1, h2]

theorem preMoveState_effSpeed (env : Env) (s : GameState) :
    effSpeed (preMoveState env s) =
      effSpeed (tumblePhase env.now (invPhase env.now s)) := by
  unfold preMoveState
  exact effSpeed_congr _ _ (spawnPhase_playerState _ _) (spawnPhase_gameSpeed _ _)

theorem movePhase_overlap_mem (env : Env) (s : GameState) (o : Obstacle)
    (ho : o ∈ s.obstacles)
    (hc : collides env.playerX env.playerY (effSpeed s) o = true) :
    o.id ∈ (movePhase env s).hitSet := by
  rcases movePhase_cases env s with h | ⟨cid, h⟩ <;> rw [h, movePhaseFinish_hitSet]
  · rw [moveBase_hitSet]
    exact hitAdd_mem _ _ o (List.mem_filter.mpr ⟨ho, hc⟩)
  · rw [applyDamage_hitSet, moveBase_hitSet]
    exact Finset.mem_insert_of_mem (hitAdd_mem _ _ o (List.mem_filter.mpr ⟨ho, hc⟩))

theorem movePhase_overlap_excl (env : Env) (s : GameState) (o : Obstacle)
    (ho : o ∈ s.obstacles)
    (hc : collides env.playerX env.playerY (effSpeed s) o = true)
    (hs : o.id ∉ s.scoredSet) :
    o.id ∉ (movePhase env s).scoredSet := by
  rcases movePhase_cases env s with h | ⟨cid, h⟩ <;> rw [h, movePhaseFinish_scoredSet]
  · refine scorePass_hit_excl _ _ o.id ?_ ?_
    · rw [moveBase_hitSet]
      exact hitAdd_mem _ _ o (List.mem_filter.mpr ⟨ho, hc⟩)
    · rw [moveBase_scoredSet]
      exact hs
  · refine scorePass_hit_excl _ _ o.id ?_ ?_
    · rw [applyDamage_hitSet, moveBase_hitSet]
      exact Finset.mem_insert_of_mem (hitAdd_mem _ _ o (List.mem_filter.mpr ⟨ho, hc⟩))
    · rw [applyDamage_scoredSet, moveBase_scoredSet]
      exact hs

theorem applyDamage_branch_gt1 (now cid : ℕ) (s : GameState) (h : s.hearts > 1) :
    (applyDamage now cid s).hearts = s.hearts - 1 ∧
    (applyDamage now cid s).playerState = PState.tumbling ∧
    (applyDamage now cid s).invMs = 750 ∧
    (applyDamage now cid s).gameOver = s.gameOver ∧
    (applyDamage now cid s).tumbleStart = some now ∧
    (applyDamage now cid s).pausedAcc = 0 := by
  simp [applyDamage, h]

theorem applyDamage_branch_eq1 (now cid : ℕ) (s : GameState) (h : s.hearts = 1) :
    (applyDamage now cid s).hearts = 0 ∧
    (applyDamage now cid s).playerState = PState.gameOver ∧
    (applyDamage now cid s).gameOver = true ∧
    (applyDamage now cid s).invMs = 750 := by
  simp [applyDamage, h]

theorem movePhase_damage_eq (env : Env) (s : GameState) (o : Obstacle)
    (rest : List Obstacle)
    (hcl : s.obstacles.filter (collides env.playerX env.playerY (effSpeed s)) = o :: rest)
    (hwc : s.wasColliding = false)
    (hr : s.playerState = PState.running) (hinv : s.invMs = 0) :
    movePhase env s = movePhaseFinish env (applyDamage env.now o.id (moveBase env s)) := by
  have hnt : ¬(s.playerState = PState.tumbling) := by
    rw [hr]
    intro hx
    cases hx
  have hcond : ((!(s.obstacles.filter
        (collides env.playerX env.playerY (effSpeed s))).isEmpty && !s.wasColliding) = true
      ∧ ¬(s.playerState = PState.tumbling) ∧ s.playerState = PState.running
      ∧ s.invMs = 0) := by
    rw [hcl, hwc]
    exact ⟨rfl, hnt, hr, hinv⟩
  unfold movePhase
  rw [if_pos hcond, hcl]
  rfl

theorem movePhase_no_collision (env : Env) (s : GameState)
    (h : s.obstacles.filter (collides env.playerX env.playerY (effSpeed s)) = []) :
    movePhase env s = movePhaseFinish env (moveBase env s) := by
  have hcond : ¬((!(s.obstacles.filter
        (collides env.playerX env.playerY (effSpeed s))).isEmpty && !s.wasColliding) = true
      ∧ ¬(s.playerState = PState.tumbling) ∧ s.playerState = PState.running
      ∧ s.invMs = 0) := by
    rw [h]
    simp
  unfold movePhase
  rw [if_neg hcond]

theorem firesDamage_spec (env : Env) (s : GameState) (hf : firesDamage env s = true) :
    env.paused = false ∧ s.gameSpeed ≠ 0 ∧ s.gameOver = false ∧
      (∃ o rest, (preMoveState env s).obstacles.filter
          (collides env.playerX env.playerY (effSpeed (preMoveState env s))) = o :: rest) ∧
      (preMoveState env s).wasColliding = false ∧
      (preMoveState env s).playerState = PState.running ∧
      (preMoveState env s).invMs = 0 := by
  unfold firesDamage at hf
  by_cases hp : env.paused = true
  · rw [hp] at hf
    simp at hf
  · rw [Bool.not_eq_true] at hp
    rw [hp] at hf
    simp only [Bool.false_eq_true, if_false] at hf
    by_cases hng : ((invPhase env.now s).gameSpeed = 0 ∨ (invPhase env.now s).gameOver = true)
    · rw [if_pos hng] at hf
      cases hf
    · rw [if_neg hng] at hf
      rw [invPhase_gameSpeed, invPhase_gameOver] at hng
      push_neg at hng
      obtain ⟨hgs, hgo⟩ := hng
      simp only [Bool.and_eq_true, decide_eq_true_eq, Bool.not_eq_true'] at hf
      obtain ⟨⟨⟨⟨hcol, hwc⟩, hnt⟩, hr⟩, hinv⟩ := hf
      refine ⟨hp, hgs, Bool.eq_false_iff.mpr hgo, ?_, hwc, hr, hinv⟩
      unfold tickColliding at hcol
      cases hL : (preMoveState env s).obstacles.filter
          (collides env.playerX env.playerY (effSpeed (preMoveState env s))) with
      | nil =>
          rw [hL] at hcol
          simp at hcol
      | cons o rest => exact ⟨o, rest, rfl⟩

theorem tick_damage_outcome (env : Env) (s : GameState)
    (hf : firesDamage env s = true) :
    (s.hearts > 1 →
      (tick env s).hearts = s.hearts - 1 ∧ (tick env s).playerState = PState.tumbling ∧
      (tick env s).invMs = 750 ∧ (tick env s).gameOver = false ∧
      (tick env s).tumbleStart = some env.now) ∧
    (s.hearts = 1 →
      (tick env s).hearts = 0 ∧ (tick env s).playerState = PState.gameOver ∧
      (tick env s).gameOver = true ∧ (tick env s).invMs = 750) := by
  obtain ⟨hp, hgs, hgo, ⟨o, rest, hcl⟩, hwc, hr, hinv⟩ := firesDamage_spec env s hf
  have htick := tick_run_eq env s hp hgs hgo
  have hmd := movePhase_damage_eq env (preMoveState env s) o rest hcl hwc hr hinv
  rw [htick, hmd]
  constructor
  · intro hh
    have h1 : (moveBase env (preMoveState env s)).hearts > 1 := by
      rw [moveBase_hearts, preMoveState_hearts]
      exact hh
    obtain ⟨e1, e2, e3, e4, e5, e6⟩ := applyDamage_branch_gt1 env.now o.id _ h1
    refine ⟨?_, ?_, ?_, ?_, ?_⟩
    · rw [movePhaseFinish_hearts, e1, moveBase_hearts, preMoveState_hearts]
    · rw [movePhaseFinish_playerState, e2]
    · rw [movePhaseFinish_invMs, e3]
    · rw [movePhaseFinish_gameOver, e4, moveBase_gameOver, preMoveState_gameOver]
      exact hgo
    · rw [movePhaseFinish_tumbleStart, e5]
  · intro hh
    have h1 : (moveBase env (preMoveState env s)).hearts = 1 := by
      rw [moveBase_hearts, preMoveState_hearts]
      exact hh
    obtain ⟨e1, e2, e3, e4⟩ := applyDamage_branch_eq1 env.now o.id _ h1
    exact ⟨by rw [movePhaseFinish_hearts, e1],
           by rw [movePhaseFinish_playerState, e2],
           by rw [movePhaseFinish_gameOver, e3],
           by rw [movePhaseFinish_invMs, e4]⟩

theorem tumblePhase_resolves (now : ℕ) (s : GameState) (ts : ℕ)
    (hst : s.playerState = PState.tumbling) (hts : s.tumbleStart = some ts)
    (hdur : (now - ts) - s.pausedAcc ≥ 1500) :
    tumblePhase now s =
      { s with playerState := PState.running, wasColliding := false,
               tumbleStart := none, pausedAcc := 0 } := by
  simp [tumblePhase, hst, hts, hdur]

theorem tick_tumble_resolution (env : Env) (s : GameState) (ts : ℕ)
    (hp : env.paused = false) (hgo : s.gameOver = false) (hgs : s.gameSpeed ≠ 0)
    (hst : s.playerState = PState.tumbling) (hts : s.tumbleStart = some ts)
    (hdur : (env.now - ts) - s.pausedAcc ≥ 1500)
    (hnc : tickColliding env s = false) :
    (tick env s).playerState = PState.running := by
  have hA := tumblePhase_resolves env.now (invPhase env.now s) ts
    (by rw [invPhase_playerState]; exact hst)
    (by rw [invPhase_tumbleStart]; exact hts)
    (by rw [invPhase_pausedAcc]; exact hdur)
  have h3 : (preMoveState env s).playerState = PState.running := by
    unfold preMoveState
    rw [spawnPhase_playerState, hA]
  have hemp : (preMoveState env s).obstacles.filter
      (collides env.playerX env.playerY (effSpeed (preMoveState env s))) = [] := by
    unfold tickColliding at hnc
    cases hL : (preMoveState env s).obstacles.filter
        (collides env.playerX env.playerY (effSpeed (preMoveState env s))) with
    | nil => rfl
    | cons o rest =>
        rw [hL] at hnc
        simp at hnc
  rw [tick_run_eq env s hp hgs hgo, movePhase_no_collision env _ hemp,
    movePhaseFinish_playerState, moveBase_playerState]
  exact h3

/-! ### Claim C10: overlap always enters the hit set -/

/-- Claim C10: on any processed tick, an obstacle whose three overlap
conditions hold has its id added to the hit set regardless of player
state, invincibility, or edge memory — and (if not already scored) it is
then excluded from scoring on this and every later tick, even though no
life need be lost. -/
theorem C10_overlap_enters_hit_set (env : Env) (s : GameState) (o : Obstacle)
    (hp : env.paused = false) (hgs : s.gameSpeed ≠ 0) (hgo : s.gameOver = false)
    (ho : o ∈ s.obstacles)
    (hc : collides env.playerX env.playerY
        (effSpeed (tumblePhase env.now (invPhase env.now s))) o = true) :
    o.id ∈ (tick env s).hitSet ∧
      (o.id ∉ s.scoredSet → ∀ (envs : ℕ → Env) (n : ℕ),
        o.id ∉ (runTicks envs n (tick env s)).scoredSet) := by
  have htick := tick_run_eq env s hp hgs hgo
  have ho3 : o ∈ (preMoveState env s).obstacles := by
    obtain ⟨t, ht⟩ := spawnPhase_obstacles_append env (tumblePhase env.now (invPhase env.now s))
    unfold preMoveState
    rw [ht, tumblePhase_obstacles, invPhase_obstacles]
    exact List.mem_append_left t ho
  have hc3 : collides env.playerX env.playerY (effSpeed (preMoveState env s)) o = true := by
    rw [preMoveState_effSpeed]
    exact hc
  have hmem : o.id ∈ (tick env s).hitSet := by
    rw [htick]
    exact movePhase_overlap_mem env _ o ho3 hc3
  refine ⟨hmem, fun hs envs n => ?_⟩
  have hexcl : o.id ∉ (tick env s).scoredSet := by
    rw [htick]
    refine movePhase_overlap_excl env _ o ho3 hc3 ?_
    rw [preMoveState_scoredSet]
    exact hs
  exact (runTicks_hit_persist envs n (tick env s) o.id hmem).2 hexcl

/-- Witness for C10: a tumbling, invincible player already in a continuing
collision still gets obstacle 11 added to the hit set, and the obstacle
never scores afterwards. -/
theorem C10_overlap_enters_hit_set_witness :
    11 ∈ (tick (demoEnv 3000) brushDemoState).hitSet ∧
      11 ∉ (runTicks demoEnvSeq 2 (tick (demoEnv 3000) brushDemoState)).scoredSet :=
  ⟨(C10_overlap_enters_hit_set (demoEnv 3000) brushDemoState (mkObstacle 11 25)
      rfl (by decide) rfl (by decide) (by decide)).1,
   (C10_overlap_enters_hit_set (demoEnv 3000) brushDemoState (mkObstacle 11 25)
      rfl (by decide) rfl (by decide) (by decide)).2 (by decide) demoEnvSeq 2⟩

/-! ### Claim C5: lives exhaustion -/

/-- Claim C5: a qualifying damage edge from 3 hearts yields 2 hearts and
Tumbling; from 2 hearts, 1 heart and Tumbling; from the last heart, 0
hearts and a direct transition to GameOver (skipping Tumbling) that still
arms the 750 ms invincibility window; and once the active tumble time
reaches 1500 ms a non-colliding tick resolves Tumbling back to Running —
so three edges separated by tumble resolution drive
Running→Tumbling→Running→Tumbling→Running→GameOver with lives 3,2,1,0. -/
theorem C5_lives_exhaustion (env : Env) (s : GameState)
    (hf : firesDamage env s = true) :
    (s.hearts = 3 → (tick env s).hearts = 2 ∧
      (tick env s).playerState = PState.tumbling ∧ (tick env s).invMs = 750) ∧
    (s.hearts = 2 → (tick env s).hearts = 1 ∧
      (tick env s).playerState = PState.tumbling ∧ (tick env s).invMs = 750) ∧
    (s.hearts = 1 → (tick env s).hearts = 0 ∧
      (tick env s).playerState = PState.gameOver ∧ (tick env s).gameOver = true ∧
      (tick env s).invMs = 750) ∧
    (∀ (env2 : Env) (s2 : GameState) (ts : ℕ),
      env2.paused = false → s2.gameOver = false → s2.gameSpeed ≠ 0 →
      s2.playerState = PState.tumbling → s2.tumbleStart = some ts →
      (env2.now - ts) - s2.pausedAcc ≥ 1500 → tickColliding env2 s2 = false →
      (tick env2 s2).playerState = PState.running) := by
  obtain ⟨hgt, heq1⟩ := tick_damage_outcome env s hf
  refine ⟨?_, ?_, ?_, ?_⟩
  · intro h3
    obtain ⟨e1, e2, e3, _, _⟩ := hgt (by omega)
    exact ⟨by rw [e1, h3], e2, e3⟩
  · intro h2
    obtain ⟨e1, e2, e3, _, _⟩ := hgt (by omega)
    exact ⟨by rw [e1, h2], e2, e3⟩
  · intro h1
    exact heq1 h1
  · intro env2 s2 ts hp hgo hgs hst hts hdur hnc
    exact tick_tumble_resolution env2 s2 ts hp hgo hgs hst hts hdur hnc

/-- Witness for C5: a concrete 3-heart hit loses one heart into Tumbling
with the invincibility window armed, and a concrete elapsed tumble
resolves back to Running. -/
theorem C5_lives_exhaustion_witness :
    ((tick (demoEnv 3000) collideDemoState).hearts = 2 ∧
      (tick (demoEnv 3000) collideDemoState).playerState = PState.tumbling ∧
      (tick (demoEnv 3000) collideDemoState).invMs = 750) ∧
    (tick (demoEnv 2500) tumbleDemoState).playerState = PState.running :=
  ⟨(C5_lives_exhaustion (demoEnv 3000) collideDemoState (by decide)).1 (by decide),
   (C5_lives_exhaustion (demoEnv 3000) collideDemoState (by decide)).2.2.2
     (demoEnv 2500) tumbleDemoState 1000 rfl rfl (by decide) rfl rfl
     (by decide) (by decide)⟩

/-! ### Claim C7: spawn spacing invariants -/

theorem moveBase_obstacles (env : Env) (s : GameState) :
    (moveBase env s).obstacles = s.obstacles.map (fun o =>
      { o with z := o.z + effSpeed s,
               hasPassedPlayer :=
                 decide (o.z + effSpeed s > playerZOf env) || o.hasPassedPlayer }) := rfl

theorem moveBase_spawnLog (env : Env) (s : GameState) :
    (moveBase env s).spawnLog = s.spawnLog := rfl

theorem moveBase_lastSpawnTime (env : Env) (s : GameState) :
    (moveBase env s).lastSpawnTime = s.lastSpawnTime := rfl

theorem movePhaseFinish_obstacles (env : Env) (st : GameState) :
    (movePhaseFinish env st).obstacles = st.obstacles.filter (fun o =>
      decide (o.z ≤ playerZOf env + LOG_DESPAWN_DISTANCE)) := by
  have h : (movePhaseFinish env st).obstacles =
      ((scorePass st.obstacles st).obstacles).filter (fun o =>
        decide (o.z ≤ playerZOf env + LOG_DESPAWN_DISTANCE)) := rfl
  rw [h, scorePass_obstacles]

theorem markFirstHit_map_z (l : List Obstacle) (cid : ℕ) :
    (markFirstHit l cid).map Obstacle.z = l.map Obstacle.z := by
  induction l with
  | nil => rfl
  | cons o t ih =>
      unfold markFirstHit
      by_cases h : o.id = cid
      · rw [if_pos h]
        rfl
      · rw [if_neg h]
        simp only [List.map_cons, ih]

theorem effSpeed_nonneg (s : GameState) (h : 0 ≤ s.gameSpeed) : 0 ≤ effSpeed s := by
  unfold effSpeed
  split
  · positivity
  · exact h

theorem spawnTimeInv_of_eq (a b : GameState) (h1 : a.spawnLog = b.spawnLog)
    (h2 : a.lastSpawnTime = b.lastSpawnTime) (h : spawnTimeInv b) : spawnTimeInv a := by
  unfold spawnTimeInv spacedLog
  rw [h1, h2]
  exact h

theorem sepInv_of_eq (a b : GameState) (h1 : a.obstacles = b.obstacles)
    (h : sepInv b) : sepInv a := by
  unfold sepInv
  rw [h1]
  exact h

theorem movePhase_spawnLog (env : Env) (s : GameState) :
    (movePhase env s).spawnLog = s.spawnLog := by
  rcases movePhase_cases env s with h | ⟨cid, h⟩ <;> rw [h, movePhaseFinish_spawnLog]
  · rw [moveBase_spawnLog]
  · rw [applyDamage_spawnLog, moveBase_spawnLog]

theorem movePhase_lastSpawnTime (env : Env) (s : GameState) :
    (movePhase env s).lastSpawnTime = s.lastSpawnTime := by
  rcases movePhase_cases env s with h | ⟨cid, h⟩ <;> rw [h, movePhaseFinish_lastSpawnTime]
  · rw [moveBase_lastSpawnTime]
  · rw [applyDamage_lastSpawnTime, moveBase_lastSpawnTime]

theorem spawnPhase_timeInv (env : Env) (s : GameState) (h : spawnTimeInv s) :
    spawnTimeInv (spawnPhase env s) := by
  obtain ⟨hch, hle⟩ := h
  unfold spawnPhase
  split
  · exact ⟨hch, hle⟩
  · split
    · split
      · rename_i nst hge hsp
        have hnow : s.lastSpawnTime + 1800 ≤ env.now := by
          unfold MIN_LOG_SPACING at hsp
          omega
        unfold spawnTimeInv spacedLog
        by_cases hb : spawnBlocked s.obstacles = true
        · simp only [hb, if_true]
          refine ⟨hch, ?_⟩
          intro t ht
          have := hle t ht
          omega
        · rw [Bool.not_eq_true] at hb
          simp only [hb, Bool.false_eq_true, if_false]
          constructor
          · rw [List.chain'_append]
            refine ⟨hch, List.chain'_singleton _, ?_⟩
            intro x hx y hy
            simp only [List.head?_cons, Option.mem_def, Option.some.injEq] at hy
            subst hy
            have hxl : x ∈ s.spawnLog := by
              obtain ⟨hne, hxe⟩ := List.mem_getLast?_eq_getLast hx
              rw [hxe]
              exact List.getLast_mem hne
            have := hle x hxl
            unfold MIN_LOG_SPACING
            omega
          · intro t ht
            rcases List.mem_append.mp ht with hin | hin
            · have := hle t hin
              omega
            · simp only [List.mem_singleton] at hin
              omega
      · exact ⟨hch, hle⟩
    · exact ⟨hch, hle⟩

theorem foldMinZ_spec (l : List Obstacle) (acc : Obstacle) :
    ((l.foldl (fun last ob => if ob.z < last.z then ob else last) acc) = acc ∨
      (l.foldl (fun last ob => if ob.z < last.z then ob else last) acc) ∈ l) ∧
    (l.foldl (fun last ob => if ob.z < last.z then ob else last) acc).z ≤ acc.z ∧
    ∀ p ∈ l, (l.foldl (fun last ob => if ob.z < last.z then ob else last) acc).z ≤ p.z := by
  induction l generalizing acc with
  | nil => simp
  | cons ob t ih =>
      have hstep : (ob :: t).foldl (fun last ob => if ob.z < last.z then ob else last) acc =
          t.foldl (fun last ob => if ob.z < last.z then ob else last)
            (if ob.z < acc.z then ob else acc) := rfl
      obtain ⟨hmem, hzacc, hzall⟩ := ih (if ob.z < acc.z then ob else acc)
      have hfz : (if ob.z < acc.z then ob else acc).z ≤ acc.z := by
        split
        · linarith [‹ob.z < acc.z›]
        · exact le_refl _
      have hfo : (if ob.z < acc.z then ob else acc).z ≤ ob.z := by
        split
        · exact le_refl _
        · linarith [not_lt.mp ‹¬ob.z < acc.z›]
      refine ⟨?_, ?_, ?_⟩
      · rw [hstep]
        rcases hmem with heq | hin
        · rw [heq]
          split
          · exact Or.inr (List.mem_cons_self _ _)
          · exact Or.inl rfl
        · exact Or.inr (List.mem_cons_of_mem _ hin)
      · rw [hstep]
        exact le_trans hzacc hfz
      · intro p hp
        rw [hstep]
        rcases List.mem_cons.mp hp with rfl | hin
        · exact le_trans hzacc hfo
        · exact hzall p hin

theorem spawnBlocked_false_far (l : List Obstacle) (hb : spawnBlocked l = false)
    (hbd : ∀ a ∈ l.map Obstacle.z, (-25 : ℚ) ≤ a) :
    ∀ a ∈ l.map Obstacle.z, MIN_LOG_DISTANCE_Z ≤ |a - (-25)| := by
  intro a ha
  obtain ⟨o, ho, rfl⟩ := List.mem_map.mp ha
  cases l with
  | nil => cases ho
  | cons p t =>
      unfold spawnBlocked findMinZ at hb
      simp only [decide_eq_false_iff_not, not_lt] at hb
      obtain ⟨hmem, hzacc, hzall⟩ := foldMinZ_spec t p
      set m := t.foldl (fun last ob => if ob.z < last.z then ob else last) p with hm
      have hmin : m ∈ p :: t := by
        rcases hmem with heq | hin
        · rw [heq]
          exact List.mem_cons_self _ _
        · exact List.mem_cons_of_mem _ hin
      have hmz : (-25 : ℚ) ≤ m.z := hbd m.z (List.mem_map.mpr ⟨m, hmin, rfl⟩)
      have hmo : m.z ≤ o.z := by
        rcases List.mem_cons.mp ho with rfl | hin
        · exact hzacc
        · exact hzall o hin
      have habs : |(-25 : ℚ) - m.z| = m.z + 25 := by
        rw [abs_sub_comm, abs_of_nonneg (by linarith)]
        ring
      rw [habs] at hb
      rw [abs_of_nonneg (by linarith)]
      linarith

theorem spawnPhase_sepInv (env : Env) (s : GameState) (h : sepInv s) :
    sepInv (spawnPhase env s) := by
  obtain ⟨hpw, hbd⟩ := h
  unfold spawnPhase
  split
  · exact ⟨hpw, hbd⟩
  · split
    · split
      · by_cases hb : spawnBlocked s.obstacles
        · unfold sepInv
          simp only [hb, if_true]
          exact ⟨hpw, hbd⟩
        · rw [Bool.not_eq_true] at hb
          unfold sepInv
          simp only [hb, Bool.false_eq_true, if_false, List.map_append,
            List.map_cons, List.map_nil]
          constructor
          · rw [List.pairwise_append]
            refine ⟨hpw, List.pairwise_singleton _ _, ?_⟩
            intro a ha b hbm
            simp only [List.mem_singleton] at hbm
            subst hbm
            exact spawnBlocked_false_far s.obstacles hb hbd a ha
          · intro a ha
            rcases List.mem_append.mp ha with hin | hin
            · exact hbd a hin
            · simp only [List.mem_singleton] at hin
              subst hin
              norm_num
      · exact ⟨hpw, hbd⟩
    · exact ⟨hpw, hbd⟩

theorem tick_timeInv (env : Env) (s : GameState) (h : spawnTimeInv s) :
    spawnTimeInv (tick env s) := by
  rcases tick_cases env s with heq | heq | heq <;> rw [heq]
  · exact h
  · exact spawnTimeInv_of_eq _ s (invPhase_spawnLog _ _) (invPhase_lastSpawnTime _ _) h
  · refine spawnTimeInv_of_eq _ (preMoveState env s) (movePhase_spawnLog _ _)
      (movePhase_lastSpawnTime _ _) ?_
    unfold preMoveState
    apply spawnPhase_timeInv
    refine spawnTimeInv_of_eq _ s ?_ ?_ h
    · rw [tumblePhase_spawnLog, invPhase_spawnLog]
    · rw [tumblePhase_lastSpawnTime, invPhase_lastSpawnTime]

theorem movePhase_sepInv (env : Env) (s : GameState) (hsp : 0 ≤ s.gameSpeed)
    (h : sepInv s) : sepInv (movePhase env s) := by
  obtain ⟨hpw, hbd⟩ := h
  have heff := effSpeed_nonneg s hsp
  have hmovedz : ((moveBase env s).obstacles).map Obstacle.z
      = (s.obstacles.map Obstacle.z).map (fun a => a + effSpeed s) := by
    simp only [moveBase_obstacles, List.map_map]
    rfl
  suffices hgen : ∀ st : GameState, st.obstacles.map Obstacle.z =
      (s.obstacles.map Obstacle.z).map (fun a => a + effSpeed s) →
      sepInv (movePhaseFinish env st) by
    rcases movePhase_cases env s with heq | ⟨cid, heq⟩ <;> rw [heq]
    · exact hgen _ hmovedz
    · refine hgen _ ?_
      rw [applyDamage_obstacles, markFirstHit_map_z]
      exact hmovedz
  intro st hst
  have hsub : List.Sublist (((movePhaseFinish env st).obstacles).map Obstacle.z)
      (st.obstacles.map Obstacle.z) := by
    rw [movePhaseFinish_obstacles]
    exact (List.filter_sublist _).map _
  constructor
  · refine List.Pairwise.sublist hsub ?_
    rw [hst]
    refine List.Pairwise.map _ ?_ hpw
    intro a b hab
    rw [show (a + effSpeed s) - (b + effSpeed s) = a - b from by ring]
    exact hab
  · intro a ha
    have h2 : a ∈ st.obstacles.map Obstacle.z := hsub.subset ha
    rw [hst] at h2
    obtain ⟨b, hb, rfl⟩ := List.mem_map.mp h2
    have := hbd b hb
    linarith

theorem tick_sepInv (env : Env) (s : GameState) (hsp : 0 ≤ s.gameSpeed)
    (h : sepInv s) : sepInv (tick env s) := by
  rcases tick_cases env s with heq | heq | heq <;> rw [heq]
  · exact h
  · exact sepInv_of_eq _ s (invPhase_obstacles _ _) h
  · have h3 : sepInv (preMoveState env s) := by
      unfold preMoveState
      apply spawnPhase_sepInv
      exact sepInv_of_eq _ s (by rw [tumblePhase_obstacles, invPhase_obstacles]) h
    have hsp3 : 0 ≤ (preMoveState env s).gameSpeed := by
      rw [preMoveState_gameSpeed]
      exact hsp
    exact movePhase_sepInv env _ hsp3 h3

theorem tick_gameSpeed (env : Env) (s : GameState) :
    (tick env s).gameSpeed = s.gameSpeed := by
  rcases tick_cases env s with heq | heq | heq <;> rw [heq]
  · rw [invPhase_gameSpeed]
  · have hmp : ∀ st, (movePhase env st).gameSpeed = st.gameSpeed := by
      intro st
      rcases movePhase_cases env st with h2 | ⟨cid, h2⟩ <;>
        rw [h2, movePhaseFinish_gameSpeed]
      · rw [moveBase_gameSpeed]
      · rw [applyDamage_gameSpeed, moveBase_gameSpeed]
    rw [hmp, preMoveState_gameSpeed]

theorem resetGame_sepInv (now : ℕ) (s : GameState) : sepInv (resetGame now s) := by
  unfold sepInv resetGame
  simp

theorem resetGame_gameSpeed_nonneg (now : ℕ) (s : GameState) :
    0 ≤ (resetGame now s).gameSpeed := by
  unfold resetGame BASE_LOG_SPEED
  norm_num

theorem difficultyBump_gameSpeed_nonneg (s : GameState) (h : 0 ≤ s.gameSpeed) :
    0 ≤ (difficultyBump s).gameSpeed := by
  unfold difficultyBump BASE_LOG_SPEED
  refine le_min (by linarith) (by norm_num)

/-- Claim C7 counterexample: a spawn at time 2000, a game reset at 2100
(which backdates `lastSpawnTime` to `now - MIN_SPACING` and schedules the
first obstacle after `FIRST_LOG_DELAY`), and the next tick at 2600 produce
consecutive spawn timestamps 2000 and 2600 — only 600 ms apart, violating
the claimed MIN_SPACING bound across game resets. -/
theorem C7_spawn_spacing_counterexample :
    (tick (demoEnv 2600) (resetGame 2100 (tick (demoEnv 2000) c7Start))).spawnLog
      = [2000, 2600] ∧ ¬spacedLog [2000, 2600] := by
  constructor
  · decide
  · intro hc
    unfold spacedLog at hc
    obtain ⟨h1, -⟩ := List.chain'_cons.mp hc
    unfold MIN_LOG_SPACING at h1
    omega

/-- Claim C7 (amended): within a session, ticks preserve the spawn-spacing
invariants: consecutive recorded spawn timestamps differ by at least
MIN_LOG_SPACING (1800 ms), and live obstacle depths stay pairwise at
least MIN_LOG_DISTANCE_Z (8) apart and ahead of the spawn plane.  The
spatial invariant also survives game resets, visibility-resume spawn
resets, and difficulty bumps; the temporal one does not survive resets
(see the counterexample), because a reset backdates `lastSpawnTime`. -/
theorem C7_spawn_spacing_amended :
    (∀ env s, spawnTimeInv s → spawnTimeInv (tick env s)) ∧
    (∀ env s, 0 ≤ s.gameSpeed → sepInv s → sepInv (tick env s)) ∧
    (∀ env s, (tick env s).gameSpeed = s.gameSpeed) ∧
    (∀ now s, sepInv (resetGame now s) ∧ 0 ≤ (resetGame now s).gameSpeed) ∧
    (∀ now s, sepInv s → sepInv (resetSpawnTracking now s)) ∧
    (∀ s, 0 ≤ s.gameSpeed → sepInv s →
      sepInv (difficultyBump s) ∧ 0 ≤ (difficultyBump s).gameSpeed) := by
  refine ⟨tick_timeInv, tick_sepInv, tick_gameSpeed,
    fun now s => ⟨resetGame_sepInv now s, resetGame_gameSpeed_nonneg now s⟩,
    fun now s h => sepInv_of_eq _ s rfl h,
    fun s hs h => ⟨sepInv_of_eq _ s rfl h, difficultyBump_gameSpeed_nonneg s hs⟩⟩

/-- Witness for the amended C7: the invariants hold after a concrete
first-spawn tick. -/
theorem C7_spawn_spacing_amended_witness :
    spawnTimeInv (tick (demoEnv 2000) c7Start) ∧
      sepInv (tick (demoEnv 2000) c7Start) :=
  ⟨C7_spawn_spacing_amended.1 (demoEnv 2000) c7Start
      ⟨List.chain'_nil, fun t ht => absurd ht (List.not_mem_nil t)⟩,
   C7_spawn_spacing_amended.2.1 (demoEnv 2000) c7Start (by decide)
      ⟨List.Pairwise.nil, fun a ha => absurd ha (List.not_mem_nil a)⟩⟩

/-! ### Toolkit for the edge-triggered damage run (claim C1) -/

theorem effSpeed_running (s : GameState) (h : s.playerState = PState.running) :
    effSpeed s = s.gameSpeed := by
  unfold effSpeed
  rw [h]
  simp

theorem effSpeed_tumbling (s : GameState) (h : s.playerState = PState.tumbling) :
    effSpeed s = s.gameSpeed * (4 / 10) := by
  unfold effSpeed
  rw [h]
  simp

theorem invPhase_zero (now : ℕ) (s : GameState) (h : s.invMs = 0) :
    invPhase now s = { s with lastInvUpd := none } := by
  unfold invPhase
  rw [if_neg]
  omega

theorem tumblePhase_not_tumbling (now : ℕ) (s : GameState)
    (h : ¬(s.playerState = PState.tumbling)) : tumblePhase now s = s := by
  unfold tumblePhase
  rw [if_neg h]

theorem tumblePhase_no_resolve (now : ℕ) (s : GameState) (ts : ℕ)
    (hts : s.tumbleStart = some ts)
    (hdur : ¬((now - ts) - s.pausedAcc ≥ 1500)) : tumblePhase now s = s := by
  unfold tumblePhase
  split
  · rw [hts]
    simp [hdur]
  · rfl

theorem spawnPhase_none (env : Env) (s : GameState) (h : s.nextSpawnTime = none) :
    spawnPhase env s = s := by
  unfold spawnPhase
  rw [h]

theorem filterSingleton_nonempty (p : Obstacle → Bool) (o : Obstacle) :
    (!(List.filter p [o]).isEmpty) = p o := by
  cases h : p o <;> simp [List.filter_cons, h]

theorem movePhase_was_colliding (env : Env) (s : GameState)
    (hwc : s.wasColliding = true) :
    movePhase env s = movePhaseFinish env (moveBase env s) := by
  unfold movePhase
  rw [if_neg]
  rintro ⟨hce, -⟩
  rw [hwc] at hce
  simp at hce

theorem firesDamage_intro (env : Env) (s : GameState) (hp : env.paused = false)
    (hgs : s.gameSpeed ≠ 0) (hgo : s.gameOver = false)
    (hcol : tickColliding env s = true)
    (hwc : (preMoveState env s).wasColliding = false)
    (hr : (preMoveState env s).playerState = PState.running)
    (hinv : (preMoveState env s).invMs = 0) : firesDamage env s = true := by
  unfold firesDamage
  rw [hp]
  simp only [Bool.false_eq_true, if_false]
  rw [if_neg (by rw [invPhase_gameSpeed, invPhase_gameOver, hgo]; simp [hgs])]
  rw [hcol, hwc, hr, hinv]
  simp

theorem firesDamage_false_of_wasColliding (env : Env) (s : GameState)
    (hwc : (preMoveState env s).wasColliding = true) : firesDamage env s = false := by
  unfold firesDamage
  split
  · rfl
  · split
    · rfl
    · rw [hwc]
      simp

theorem tick_gameOver_frozen (env : Env) (s : GameState) (h : s.gameOver = true) :
    (tick env s).gameOver = true ∧ (tick env s).hearts = s.hearts ∧
      firesDamage env s = false := by
  have hor : ((invPhase env.now s).gameSpeed = 0 ∨ (invPhase env.now s).gameOver = true) := by
    rw [invPhase_gameOver]
    exact Or.inr h
  unfold tick firesDamage
  by_cases hp : env.paused = true
  · rw [hp]
    exact ⟨by simpa using h, rfl, rfl⟩
  · rw [Bool.not_eq_true] at hp
    rw [hp]
    simp only [Bool.false_eq_true, if_false]
    rw [if_pos hor]
    exact ⟨by rw [invPhase_gameOver]; exact h, invPhase_hearts env.now s,
      by rw [if_pos hor]⟩

theorem countP_range_one (N : ℕ) (p : ℕ → Bool) (h0 : p 0 = true)
    (h1 : ∀ i, 1 ≤ i → i < N → p i = false) (hN : 0 < N) :
    (List.range N).countP p = 1 := by
  induction N with
  | zero => omega
  | succ m ih =>
      rw [List.range_succ, List.countP_append]
      by_cases hm : m = 0
      · subst hm
        simp [h0]
      · have hmf : p m = false := h1 m (by omega) (by omega)
        rw [ih (fun i hi1 hi2 => h1 i hi1 (by omega)) (by omega)]
        simp [hmf]

theorem playerZOf_stdEnv (t0 : ℕ) (px py : ℚ) (g i : ℕ) :
    playerZOf (stdEnv t0 px py 26 g i) = 26 := by
  unfold playerZOf stdEnv
  norm_num

theorem moveBase_nextSpawnTime (env : Env) (s : GameState) :
    (moveBase env s).nextSpawnTime = s.nextSpawnTime := rfl

theorem moveBase_tumbleStart (env : Env) (s : GameState) :
    (moveBase env s).tumbleStart = s.tumbleStart := rfl

theorem moveBase_pausedAcc (env : Env) (s : GameState) :
    (moveBase env s).pausedAcc = s.pausedAcc := rfl

theorem moveBase_invMs (env : Env) (s : GameState) :
    (moveBase env s).invMs = s.invMs := rfl

theorem moveBase_wasColliding (env : Env) (s : GameState) :
    (moveBase env s).wasColliding =
      !(s.obstacles.filter (collides env.playerX env.playerY (effSpeed s))).isEmpty := rfl

theorem collides_spec (px py eff : ℚ) (o : Obstacle) (h : collides px py eff o = true) :
    |o.x - px| < 18 / 10 ∧ o.z + eff > 49 / 2 ∧ o.z + eff < 27 ∧ py < 13 / 10 := by
  unfold collides at h
  simp only [Bool.and_eq_true, decide_eq_true_eq] at h
  exact ⟨h.1.1.1, h.1.1.2, h.1.2, h.2⟩

theorem c1_first_tick (t0 : ℕ) (px py : ℚ) (g : ℕ) (o : Obstacle) (s0 : GameState)
    (hrun : s0.playerState = PState.running) (hinv : s0.invMs = 0)
    (hwc : s0.wasColliding = false) (hobs : s0.obstacles = [o])
    (hnst : s0.nextSpawnTime = none) (hgo : s0.gameOver = false)
    (hsp : BASE_LOG_SPEED ≤ s0.gameSpeed)
    (hc0 : tickColliding (stdEnv t0 px py 26 g 0) s0 = true) :
    firesDamage (stdEnv t0 px py 26 g 0) s0 = true ∧
    collides px py s0.gameSpeed o = true ∧
    (2 ≤ s0.hearts →
      (tick (stdEnv t0 px py 26 g 0) s0).playerState = PState.tumbling ∧
      (tick (stdEnv t0 px py 26 g 0) s0).wasColliding = true ∧
      (tick (stdEnv t0 px py 26 g 0) s0).gameOver = false ∧
      (tick (stdEnv t0 px py 26 g 0) s0).gameSpeed = s0.gameSpeed ∧
      (tick (stdEnv t0 px py 26 g 0) s0).hearts = s0.hearts - 1 ∧
      (tick (stdEnv t0 px py 26 g 0) s0).nextSpawnTime = none ∧
      (tick (stdEnv t0 px py 26 g 0) s0).tumbleStart = some t0 ∧
      (tick (stdEnv t0 px py 26 g 0) s0).pausedAcc = 0 ∧
      ∃ ob : Obstacle, (tick (stdEnv t0 px py 26 g 0) s0).obstacles = [ob] ∧
        ob.id = o.id ∧ ob.x = o.x ∧ ob.z = o.z + s0.gameSpeed) ∧
    (s0.hearts = 1 →
      (tick (stdEnv t0 px py 26 g 0) s0).gameOver = true ∧
      (tick (stdEnv t0 px py 26 g 0) s0).hearts = 0) := by
  have hgs : s0.gameSpeed ≠ 0 := by
    unfold BASE_LOG_SPEED at hsp
    intro h0
    rw [h0] at hsp
    norm_num at hsp
  have hp0 : invPhase (stdEnv t0 px py 26 g 0).now s0 = { s0 with lastInvUpd := none } :=
    invPhase_zero _ _ hinv
  have hnt : ¬(({ s0 with lastInvUpd := none } : GameState).playerState = PState.tumbling) := by
    show ¬(s0.playerState = PState.tumbling)
    rw [hrun]
    simp
  have hpre : preMoveState (stdEnv t0 px py 26 g 0) s0 = { s0 with lastInvUpd := none } := by
    unfold preMoveState
    rw [hp0, tumblePhase_not_tumbling _ _ hnt,
      spawnPhase_none _ _ (show ({ s0 with lastInvUpd := none } : GameState).nextSpawnTime
        = none from hnst)]
  have heff : effSpeed ({ s0 with lastInvUpd := none } : GameState) = s0.gameSpeed :=
    effSpeed_running _ (show s0.playerState = PState.running from hrun)
  have hcol : collides px py s0.gameSpeed o = true := by
    unfold tickColliding at hc0
    rw [hpre] at hc0
    have hc0x : (!(List.filter (collides px py
        (effSpeed ({ s0 with lastInvUpd := none } : GameState))) [o]).isEmpty) = true := by
      rw [← hobs]
      exact hc0
    rw [heff, filterSingleton_nonempty] at hc0x
    exact hc0x
  have hfil : ({ s0 with lastInvUpd := none } : GameState).obstacles.filter
      (collides (stdEnv t0 px py 26 g 0).playerX (stdEnv t0 px py 26 g 0).playerY
        (effSpeed ({ s0 with lastInvUpd := none } : GameState))) = o :: [] := by
    show List.filter (collides px py
      (effSpeed ({ s0 with lastInvUpd := none } : GameState))) s0.obstacles = [o]
    rw [heff, hobs]
    simp [List.filter_cons, hcol]
  have hfires : firesDamage (stdEnv t0 px py 26 g 0) s0 = true := by
    refine firesDamage_intro _ _ rfl hgs hgo hc0 ?_ ?_ ?_
    · rw [hpre]
      exact hwc
    · rw [hpre]
      exact hrun
    · rw [hpre]
      exact hinv
  have htick : tick (stdEnv t0 px py 26 g 0) s0 =
      movePhase (stdEnv t0 px py 26 g 0) (preMoveState (stdEnv t0 px py 26 g 0) s0) :=
    tick_run_eq _ s0 rfl hgs hgo
  have hdmg : movePhase (stdEnv t0 px py 26 g 0) ({ s0 with lastInvUpd := none }) =
      movePhaseFinish (stdEnv t0 px py 26 g 0)
        (applyDamage (stdEnv t0 px py 26 g 0).now o.id
          (moveBase (stdEnv t0 px py 26 g 0) ({ s0 with lastInvUpd := none }))) :=
    movePhase_damage_eq _ _ o [] hfil (show s0.wasColliding = false from hwc)
      (show s0.playerState = PState.running from hrun) (show s0.invMs = 0 from hinv)
  obtain ⟨hcx, hz1, hz2, hpy⟩ := collides_spec px py s0.gameSpeed o hcol
  have hobsm : (moveBase (stdEnv t0 px py 26 g 0)
      ({ s0 with lastInvUpd := none } : GameState)).obstacles.length = 1 ∧
      ∃ ob : Obstacle, (moveBase (stdEnv t0 px py 26 g 0)
        ({ s0 with lastInvUpd := none } : GameState)).obstacles = [ob] ∧
        ob.id = o.id ∧ ob.x = o.x ∧ ob.z = o.z + s0.gameSpeed := by
    rw [moveBase_obstacles, heff,
      show ({ s0 with lastInvUpd := none } : GameState).obstacles = s0.obstacles from rfl,
      hobs]
    exact ⟨rfl, _, rfl, rfl, rfl, rfl⟩
  refine ⟨hfires, hcol, ?_, ?_⟩
  · intro h2
    rw [htick, hpre, hdmg]
    obtain ⟨e1, e2, e3, e4, e5, e6⟩ := applyDamage_branch_gt1
      (stdEnv t0 px py 26 g 0).now o.id _
      (show (moveBase (stdEnv t0 px py 26 g 0)
        ({ s0 with lastInvUpd := none } : GameState)).hearts > 1 by
          rw [moveBase_hearts]
          show s0.hearts > 1
          omega)
    obtain ⟨-, ob, hoblist, hobid, hobx, hobz⟩ := hobsm
    refine ⟨?_, ?_, ?_, ?_, ?_, ?_, ?_, ?_, ?_⟩
    · rw [movePhaseFinish_playerState, e2]
    · rw [movePhaseFinish_wasColliding, applyDamage_wasColliding, moveBase_wasColliding,
        hfil]
      rfl
    · rw [movePhaseFinish_gameOver, e4, moveBase_gameOver]
      exact hgo
    · rw [movePhaseFinish_gameSpeed, applyDamage_gameSpeed, moveBase_gameSpeed]
    · rw [movePhaseFinish_hearts, e1, moveBase_hearts]
    · rw [movePhaseFinish_nextSpawnTime, applyDamage_nextSpawnTime, moveBase_nextSpawnTime]
      exact hnst
    · rw [movePhaseFinish_tumbleStart, e5]
      simp [stdEnv]
    · rw [movePhaseFinish_pausedAcc, e6]
    · rw [movePhaseFinish_obstacles, applyDamage_obstacles, hoblist]
      have hmark : markFirstHit [ob] o.id = [{ ob with hasHitPlayer := true }] := by
        unfold markFirstHit
        rw [if_pos hobid]
      rw [hmark]
      have hkeep : (decide (({ ob with hasHitPlayer := true } : Obstacle).z ≤
          playerZOf (stdEnv t0 px py 26 g 0) + LOG_DESPAWN_DISTANCE)) = true := by
        rw [decide_eq_true_eq, playerZOf_stdEnv]
        show ob.z ≤ 26 + LOG_DESPAWN_DISTANCE
        rw [hobz]
        unfold LOG_DESPAWN_DISTANCE
        linarith
      refine ⟨{ ob with hasHitPlayer := true }, ?_, hobid, hobx, hobz⟩
      simp [List.filter_cons, hkeep]
  · intro h1
    rw [htick, hpre, hdmg]
    obtain ⟨e1, e2, e3, e4⟩ := applyDamage_branch_eq1
      (stdEnv t0 px py 26 g 0).now o.id _
      (show (moveBase (stdEnv t0 px py 26 g 0)
        ({ s0 with lastInvUpd := none } : GameState)).hearts = 1 by
          rw [moveBase_hearts]
          exact h1)
    exact ⟨by rw [movePhaseFinish_gameOver, e3], by rw [movePhaseFinish_hearts, e1]⟩

/-- While the tumble from the first hit is still active and the overlap
persists, a tick fires no damage (the `wasColliding` edge memory is still
set) and the post-hit invariant is preserved, the obstacle advancing at
the reduced tumbling speed. -/
theorem c1_step (t0 : ℕ) (px py : ℚ) (g i : ℕ) (ob : Obstacle) (s : GameState)
    (htum : s.playerState = PState.tumbling) (hwc : s.wasColliding = true)
    (hgo : s.gameOver = false) (hgs : s.gameSpeed ≠ 0)
    (hnst : s.nextSpawnTime = none) (hts : s.tumbleStart = some t0)
    (hpa : s.pausedAcc = 0) (hobs : s.obstacles = [ob])
    (hdur : 16 * i < 1500)
    (hc : tickColliding (stdEnv t0 px py 26 g i) s = true) :
    firesDamage (stdEnv t0 px py 26 g i) s = false ∧
    (tick (stdEnv t0 px py 26 g i) s).playerState = PState.tumbling ∧
    (tick (stdEnv t0 px py 26 g i) s).wasColliding = true ∧
    (tick (stdEnv t0 px py 26 g i) s).gameOver = false ∧
    (tick (stdEnv t0 px py 26 g i) s).gameSpeed = s.gameSpeed ∧
    (tick (stdEnv t0 px py 26 g i) s).hearts = s.hearts ∧
    (tick (stdEnv t0 px py 26 g i) s).nextSpawnTime = none ∧
    (tick (stdEnv t0 px py 26 g i) s).tumbleStart = some t0 ∧
    (tick (stdEnv t0 px py 26 g i) s).pausedAcc = 0 ∧
    ∃ ob2 : Obstacle, (tick (stdEnv t0 px py 26 g i) s).obstacles = [ob2] ∧
      ob2.id = ob.id ∧ ob2.x = ob.x ∧ ob2.z = ob.z + s.gameSpeed * (4 / 10) := by
  have hnores : tumblePhase (stdEnv t0 px py 26 g i).now
      (invPhase (stdEnv t0 px py 26 g i).now s) =
      invPhase (stdEnv t0 px py 26 g i).now s := by
    refine tumblePhase_no_resolve _ _ t0 ?_ ?_
    · rw [invPhase_tumbleStart]
      exact hts
    · rw [invPhase_pausedAcc, hpa]
      show ¬(t0 + 16 * i - t0 - 0 ≥ 1500)
      omega
  have hpre : preMoveState (stdEnv t0 px py 26 g i) s =
      invPhase (stdEnv t0 px py 26 g i).now s := by
    unfold preMoveState
    rw [hnores, spawnPhase_none _ _ (by rw [invPhase_nextSpawnTime]; exact hnst)]
  have heff : effSpeed (invPhase (stdEnv t0 px py 26 g i).now s) =
      s.gameSpeed * (4 / 10) := by
    rw [effSpeed_tumbling _ (by rw [invPhase_playerState]; exact htum), invPhase_gameSpeed]
  have hcol : collides px py (s.gameSpeed * (4 / 10)) ob = true := by
    unfold tickColliding at hc
    rw [hpre, heff, invPhase_obstacles, hobs, filterSingleton_nonempty] at hc
    exact hc
  have hfd : firesDamage (stdEnv t0 px py 26 g i) s = false :=
    firesDamage_false_of_wasColliding _ _ (by rw [hpre, invPhase_wasColliding]; exact hwc)
  have htk : tick (stdEnv t0 px py 26 g i) s =
      movePhaseFinish (stdEnv t0 px py 26 g i)
        (moveBase (stdEnv t0 px py 26 g i) (invPhase (stdEnv t0 px py 26 g i).now s)) := by
    rw [tick_run_eq _ s rfl hgs hgo, hpre,
      movePhase_was_colliding _ _ (by rw [invPhase_wasColliding]; exact hwc)]
  obtain ⟨-, -, hzhi, -⟩ := collides_spec px py (s.gameSpeed * (4 / 10)) ob hcol
  have hmap : ∃ ob2 : Obstacle,
      (moveBase (stdEnv t0 px py 26 g i)
        (invPhase (stdEnv t0 px py 26 g i).now s)).obstacles = [ob2] ∧
      ob2.id = ob.id ∧ ob2.x = ob.x ∧ ob2.z = ob.z + s.gameSpeed * (4 / 10) := by
    rw [moveBase_obstacles, heff, invPhase_obstacles, hobs]
    exact ⟨_, rfl, rfl, rfl, rfl⟩
  obtain ⟨ob2, hol, hid2, hx2, hzeq⟩ := hmap
  refine ⟨hfd, ?_, ?_, ?_, ?_, ?_, ?_, ?_, ?_, ?_⟩
  · rw [htk, movePhaseFinish_playerState, moveBase_playerState, invPhase_playerState]
    exact htum
  · rw [htk, movePhaseFinish_wasColliding, moveBase_wasColliding, heff,
      invPhase_obstacles, hobs, filterSingleton_nonempty]
    exact hcol
  · rw [htk, movePhaseFinish_gameOver, moveBase_gameOver, invPhase_gameOver]
    exact hgo
  · rw [htk, movePhaseFinish_gameSpeed, moveBase_gameSpeed, invPhase_gameSpeed]
  · rw [htk, movePhaseFinish_hearts, moveBase_hearts, invPhase_hearts]
  · rw [htk, movePhaseFinish_nextSpawnTime, moveBase_nextSpawnTime, invPhase_nextSpawnTime]
    exact hnst
  · rw [htk, movePhaseFinish_tumbleStart, moveBase_tumbleStart, invPhase_tumbleStart]
    exact hts
  · rw [htk, movePhaseFinish_pausedAcc, moveBase_pausedAcc, invPhase_pausedAcc]
    exact hpa
  · have hkeep : (decide (ob2.z ≤ playerZOf (stdEnv t0 px py 26 g i)
        + LOG_DESPAWN_DISTANCE)) = true := by
      rw [decide_eq_true_eq, playerZOf_stdEnv, hzeq]
      unfold LOG_DESPAWN_DISTANCE
      linarith
    refine ⟨ob2, ?_, hid2, hx2, hzeq⟩
    rw [htk, movePhaseFinish_obstacles, hol]
    simp [List.filter_cons, hkeep]

/-- The run invariant behind the edge-triggered damage claim: after the
first tick of a continuously-overlapping unpaused run started on a
collision-enter edge (with at least two hearts), every later state within
the overlap window is tumbling with the edge memory set, one heart spent,
and the single obstacle advanced at the reduced speed; and every tick
after the first fires no further damage. -/
theorem c1_run_inv (t0 : ℕ) (px py : ℚ) (g N : ℕ) (o : Obstacle) (s0 : GameState)
    (hN : 1 ≤ N)
    (hrun : s0.playerState = PState.running) (hinv : s0.invMs = 0)
    (hwc : s0.wasColliding = false) (hobs : s0.obstacles = [o])
    (hnst : s0.nextSpawnTime = none) (hgo : s0.gameOver = false)
    (hsp : BASE_LOG_SPEED ≤ s0.gameSpeed) (hh2 : 2 ≤ s0.hearts)
    (hcoll : ∀ i, i < N → tickColliding (stdEnv t0 px py 26 g i)
      (runTicks (stdEnv t0 px py 26 g) i s0) = true) :
    ∀ i, 1 ≤ i → i ≤ N →
      ((runTicks (stdEnv t0 px py 26 g) i s0).playerState = PState.tumbling ∧
       (runTicks (stdEnv t0 px py 26 g) i s0).wasColliding = true ∧
       (runTicks (stdEnv t0 px py 26 g) i s0).gameOver = false ∧
       (runTicks (stdEnv t0 px py 26 g) i s0).gameSpeed = s0.gameSpeed ∧
       (runTicks (stdEnv t0 px py 26 g) i s0).hearts = s0.hearts - 1 ∧
       (runTicks (stdEnv t0 px py 26 g) i s0).nextSpawnTime = none ∧
       (runTicks (stdEnv t0 px py 26 g) i s0).tumbleStart = some t0 ∧
       (runTicks (stdEnv t0 px py 26 g) i s0).pausedAcc = 0 ∧
       ∃ ob : Obstacle, (runTicks (stdEnv t0 px py 26 g) i s0).obstacles = [ob] ∧
         ob.id = o.id ∧ ob.x = o.x ∧
         ob.z = o.z + s0.gameSpeed + ((i - 1 : ℕ) : ℚ) * (s0.gameSpeed * (4 / 10))) ∧
      (2 ≤ i → firesDamage (stdEnv t0 px py 26 g (i - 1))
        (runTicks (stdEnv t0 px py 26 g) (i - 1) s0) = false) := by
  have hσ : s0.gameSpeed ≠ 0 := by
    unfold BASE_LOG_SPEED at hsp
    intro h0
    rw [h0] at hsp
    norm_num at hsp
  obtain ⟨hfd0, hcolo, hA, -⟩ := c1_first_tick t0 px py g o s0 hrun hinv hwc hobs hnst hgo
    hsp (hcoll 0 (by omega))
  obtain ⟨-, hz0lo, -, -⟩ := collides_spec px py s0.gameSpeed o hcolo
  intro i
  induction i with
  | zero => intro h1 _; exact absurd h1 (by omega)
  | succ m ih =>
      intro _ hle
      by_cases hm : m = 0
      · subst hm
        obtain ⟨p1, p2, p3, p4, p5, p6, p7, p8, ob, ho1, ho2, ho3, ho4⟩ := hA hh2
        have hr1 : runTicks (stdEnv t0 px py 26 g) 1 s0 =
            tick (stdEnv t0 px py 26 g 0) s0 := rfl
        rw [hr1]
        refine ⟨⟨p1, p2, p3, p4, p5, p6, p7, p8, ob, ho1, ho2, ho3, ?_⟩, ?_⟩
        · rw [ho4]
          norm_num
        · intro h2
          exact absurd h2 (by omega)
      · have hm1 : 1 ≤ m := by omega
        obtain ⟨⟨q1, q2, q3, q4, q5, q6, q7, q8, ob, ho1, ho2, ho3, ho4⟩, -⟩ :=
          ih hm1 (by omega)
        have hcm := hcoll m (by omega)
        have hdurm : 16 * m < 1500 := by
          by_contra hres
          push_neg at hres
          have hresolved := tumblePhase_resolves (stdEnv t0 px py 26 g m).now
            (invPhase (stdEnv t0 px py 26 g m).now (runTicks (stdEnv t0 px py 26 g) m s0))
            t0
            (by rw [invPhase_playerState]; exact q1)
            (by rw [invPhase_tumbleStart]; exact q7)
            (by rw [invPhase_pausedAcc, q8]
                show t0 + 16 * m - t0 - 0 ≥ 1500
                omega)
          have hpreR : preMoveState (stdEnv t0 px py 26 g m)
              (runTicks (stdEnv t0 px py 26 g) m s0) =
              { invPhase (stdEnv t0 px py 26 g m).now
                  (runTicks (stdEnv t0 px py 26 g) m s0) with
                  playerState := PState.running, wasColliding := false,
                  tumbleStart := none, pausedAcc := 0 } := by
            unfold preMoveState
            rw [hresolved]
            exact spawnPhase_none _ _ (by
              show (invPhase (stdEnv t0 px py 26 g m).now
                (runTicks (stdEnv t0 px py 26 g) m s0)).nextSpawnTime = none
              rw [invPhase_nextSpawnTime]
              exact q6)
          have heffR : effSpeed ({ invPhase (stdEnv t0 px py 26 g m).now
              (runTicks (stdEnv t0 px py 26 g) m s0) with
                playerState := PState.running, wasColliding := false,
                tumbleStart := none, pausedAcc := 0 } : GameState) = s0.gameSpeed := by
            rw [effSpeed_running _ rfl]
            show (invPhase (stdEnv t0 px py 26 g m).now
              (runTicks (stdEnv t0 px py 26 g) m s0)).gameSpeed = s0.gameSpeed
            rw [invPhase_gameSpeed]
            exact q4
          unfold tickColliding at hcm
          rw [hpreR, heffR,
            show ({ invPhase (stdEnv t0 px py 26 g m).now
                (runTicks (stdEnv t0 px py 26 g) m s0) with
                playerState := PState.running, wasColliding := false,
                tumbleStart := none, pausedAcc := 0 } : GameState).obstacles =
              (invPhase (stdEnv t0 px py 26 g m).now
                (runTicks (stdEnv t0 px py 26 g) m s0)).obstacles from rfl,
            invPhase_obstacles, ho1, filterSingleton_nonempty] at hcm
          obtain ⟨-, -, hup, -⟩ := collides_spec px py s0.gameSpeed ob hcm
          rw [ho4] at hup
          have hcast : ((m - 1 : ℕ) : ℚ) = (m : ℚ) - 1 := by
            rw [Nat.cast_sub hm1]
            norm_num
          rw [hcast] at hup
          have hple : ((12 : ℚ) / 100) ≤ s0.gameSpeed := hsp
          have hm94 : (94 : ℚ) ≤ (m : ℚ) := by
            have h94 : 94 ≤ m := by omega
            exact_mod_cast h94
          have hmono : ((m : ℚ) - 1) * (12 / 100 * (4 / 10)) ≤
              ((m : ℚ) - 1) * (s0.gameSpeed * (4 / 10)) := by
            apply mul_le_mul_of_nonneg_left _ (by linarith)
            linarith
          linarith [hz0lo]
        obtain ⟨rfd, r1, r2, r3, r4, r5, r6, r7, r8, ob2, ro1, ro2, ro3, ro4⟩ :=
          c1_step t0 px py g m ob (runTicks (stdEnv t0 px py 26 g) m s0)
            q1 q2 q3 (by rw [q4]; exact hσ) q6 q7 q8 ho1 hdurm hcm
        have hrs : runTicks (stdEnv t0 px py 26 g) (m + 1) s0 =
            tick (stdEnv t0 px py 26 g m) (runTicks (stdEnv t0 px py 26 g) m s0) := rfl
        rw [hrs]
        refine ⟨⟨r1, r2, r3, ?_, ?_, r6, r7, r8, ob2, ro1, ?_, ?_, ?_⟩, fun _ => rfd⟩
        · rw [r4, q4]
        · rw [r5, q5]
        · rw [ro2, ho2]
        · rw [ro3, ho3]
        · rw [ro4, ho4, q4]
          have hc1 : ((m + 1 - 1 : ℕ) : ℚ) = ((m - 1 : ℕ) : ℚ) + 1 := by
            have he : m + 1 - 1 = (m - 1) + 1 := by omega
            rw [he]
            push_cast
            ring
          rw [hc1]
          ring

/-- Claim C1 (edge-triggered damage): in any unpaused run whose overlap
conditions against the single obstacle hold on N consecutive ticks
(N > 1), started in the running state with the invincibility timer expired
and no collision remembered from the previous tick, exactly one damage
event fires over those N ticks regardless of N; it costs exactly one life,
and the single state transition is to tumbling (two or more hearts) or
directly to game over (last heart). -/
theorem C1_edge_triggered_damage (t0 : ℕ) (px py : ℚ) (g N : ℕ) (o : Obstacle)
    (s0 : GameState) (hN : 1 < N)
    (hrun : s0.playerState = PState.running) (hinv : s0.invMs = 0)
    (hwc : s0.wasColliding = false) (hobs : s0.obstacles = [o])
    (hnst : s0.nextSpawnTime = none) (hgo : s0.gameOver = false)
    (hsp : BASE_LOG_SPEED ≤ s0.gameSpeed) (hh : 1 ≤ s0.hearts)
    (hcoll : ∀ i, i < N → tickColliding (stdEnv t0 px py 26 g i)
      (runTicks (stdEnv t0 px py 26 g) i s0) = true) :
    damageCount (stdEnv t0 px py 26 g) N s0 = 1 ∧
    (runTicks (stdEnv t0 px py 26 g) N s0).hearts + 1 = s0.hearts ∧
    (2 ≤ s0.hearts →
      (runTicks (stdEnv t0 px py 26 g) N s0).playerState = PState.tumbling) ∧
    (s0.hearts = 1 →
      (runTicks (stdEnv t0 px py 26 g) N s0).gameOver = true) := by
  obtain ⟨hfd0, -, -, hB⟩ := c1_first_tick t0 px py g o s0 hrun hinv hwc hobs hnst hgo
    hsp (hcoll 0 (by omega))
  by_cases hh2 : 2 ≤ s0.hearts
  · have hInv := c1_run_inv t0 px py g N o s0 (by omega) hrun hinv hwc hobs hnst hgo
      hsp hh2 hcoll
    obtain ⟨⟨q1, -, -, -, q5, -⟩, -⟩ := hInv N (by omega) (by omega)
    refine ⟨?_, ?_, fun _ => q1, fun h1 => absurd h1 (by omega)⟩
    · unfold damageCount
      refine countP_range_one N _ hfd0 ?_ (by omega)
      intro j hj1 hj2
      exact (hInv (j + 1) (by omega) (by omega)).2 (by omega)
    · rw [q5]
      omega
  · have h1 : s0.hearts = 1 := by omega
    have hfro : ∀ i, 1 ≤ i →
        (runTicks (stdEnv t0 px py 26 g) i s0).gameOver = true ∧
        (runTicks (stdEnv t0 px py 26 g) i s0).hearts = 0 := by
      intro i
      induction i with
      | zero => intro h; exact absurd h (by omega)
      | succ m ih =>
          intro _
          by_cases hm : m = 0
          · subst hm
            have hr1 : runTicks (stdEnv t0 px py 26 g) 1 s0 =
                tick (stdEnv t0 px py 26 g 0) s0 := rfl
            rw [hr1]
            exact hB h1
          · obtain ⟨f1, f2⟩ := ih (by omega)
            obtain ⟨z1, z2, -⟩ := tick_gameOver_frozen (stdEnv t0 px py 26 g m)
              (runTicks (stdEnv t0 px py 26 g) m s0) f1
            have hrs : runTicks (stdEnv t0 px py 26 g) (m + 1) s0 =
                tick (stdEnv t0 px py 26 g m) (runTicks (stdEnv t0 px py 26 g) m s0) := rfl
            rw [hrs]
            exact ⟨z1, by rw [z2]; exact f2⟩
    obtain ⟨g1, g2⟩ := hfro N (by omega)
    refine ⟨?_, ?_, fun h2 => absurd h2 (by omega), fun _ => g1⟩
    · unfold damageCount
      refine countP_range_one N _ hfd0 ?_ (by omega)
      intro j hj1 hj2
      exact (tick_gameOver_frozen (stdEnv t0 px py 26 g j)
        (runTicks (stdEnv t0 px py 26 g) j s0) (hfro j hj1).1).2.2
    · rw [g2, h1]

theorem C1_edge_triggered_damage_witness :
    damageCount (stdEnv 3000 0 0 26 2000) 2 c1DemoState = 1 ∧
    (runTicks (stdEnv 3000 0 0 26 2000) 2 c1DemoState).hearts + 1 = c1DemoState.hearts ∧
    (2 ≤ c1DemoState.hearts →
      (runTicks (stdEnv 3000 0 0 26 2000) 2 c1DemoState).playerState = PState.tumbling) ∧
    (c1DemoState.hearts = 1 →
      (runTicks (stdEnv 3000 0 0 26 2000) 2 c1DemoState).gameOver = true) :=
  C1_edge_triggered_damage 3000 0 0 2000 2 (mkObstacle 3 25) c1DemoState
    (by decide) rfl rfl rfl rfl rfl rfl (le_refl _) (by decide) (by decide)


end ForestRunner
